import Mathlib

/-! Election client (`src/app.js`): model and verified properties.

The browser client is embedded as functions over an explicit program state.

* The module-level variables (`userAddress`, `factoryContract`, `currentElection`,
  `voterElection`, `isCommissioner`) and the parts of the page the script writes to
  are fields of `State`.
* Everything outside the script (wallet, provider, the two contracts, `Date` parsing) is an
  `Env`: each interaction is answered by a function of the history of the run so far, so an
  answer may differ from one call to the next.
* Every interaction and every page write is appended to `State.trace`, in program order.
* An `async` function is an `Act`: it maps a state to the state it leaves behind together
  with either a value (the promise resolves) or the thrown value (the promise rejects).
  The functions are modelled one call at a time; interleavings of two calls are not.
* Page elements addressed by `document.getElementById` are taken to exist.
* Markup assigned to `innerHTML` is kept as structured data (`Html`) holding the
  interpolated values of the template, not as a flat string.
-/

namespace ElectionClient

/-! ## JavaScript strings -/

/-- Whether the character list starts with the pattern. -/
def startsWithChars : List Char → List Char → Bool
  | _, [] => true
  | [], _ :: _ => false
  | c :: cs, p :: ps => c == p && startsWithChars cs ps

/-- Whether the pattern occurs somewhere in the character list. -/
def includesChars : List Char → List Char → Bool
  | [], p => startsWithChars [] p
  | c :: cs, p => startsWithChars (c :: cs) p || includesChars cs p

/-- The method `s.includes(search)` of a string. -/
def includes (s search : String) : Bool :=
  includesChars s.data search.data

/-- The expression `a || b` where `a` is a string or `undefined` and `b` is a string:
`a` when it is a non-empty string, `b` otherwise. -/
def orElse (a : Option String) (b : String) : String :=
  match a with
  | some v => if v = "" then b else v
  | none => b

/-- The expression `s.substring(0, n) + "..." + s.substring(38)` used to shorten addresses. -/
def shorten (s : String) (n : Nat) : String :=
  s.take n ++ "..." ++ s.drop 38

/-! ## Error objects and `parseError` -/

/-- A value caught by a `catch` clause: the three properties `parseError` looks at.
`code` is `none` when the property is absent or not a number; `message` and `reason`
are `none` when absent. -/
structure ErrorObj where
  code : Option Int
  message : Option String
  reason : Option String
  deriving DecidableEq, Repr

/-- The `TypeError` raised by the JavaScript engine itself (reading a property of
`undefined`): an error object with a message and no `code` or `reason`. -/
def typeError (what : String) : ErrorObj :=
  { code := none, message := some what, reason := none }

/-- Source lines 483-489, `parseError(error)`. Reading `error.message.includes` when
`error.message` is `undefined` raises a `TypeError`. -/
def parseError (error : ErrorObj) : Except ErrorObj String :=
  if error.code = some 4001 then .ok "Transaction rejected"
  else
    match error.message with
    | none => .error (typeError "Cannot read properties of undefined (reading 'includes')")
    | some message =>
      if includes message "Already initialized" then .ok "Already initialized"
      else if includes message "insufficient funds" then .ok "Insufficient ETH"
      else .ok (orElse error.reason (orElse error.message "Transaction failed"))

/-! ## Contract interface (`FACTORY_ABI`, `ELECTION_ABI`) -/

abbrev Address := String

/-- A JavaScript number obtained from a date field: `none` is `NaN`, otherwise the value
of the finite double. -/
abbrev JSNum := Option ℚ

/-- Result tuple of `getElectionFullInfo(address)`; the script reads positions 1, 4, 5, 6. -/
structure ElectionInfo where
  field0 : Address
  title : String
  field2 : Address
  field3 : Nat
  status : String
  candidates : Nat
  votes : Nat
  deriving DecidableEq, Repr

/-- Result tuple of `getElectionDetails()`; the script reads positions 0, 1 and 5. -/
structure ElectionDetails where
  title : String
  description : String
  field2 : Address
  field3 : Nat
  field4 : Nat
  status : String
  deriving DecidableEq, Repr

/-- An element of `getAllCandidates()`. -/
structure Candidate where
  id : Nat
  name : String
  description : String
  voteCount : Nat
  existsFlag : Bool
  deriving DecidableEq, Repr

/-- The read-only contract methods the script calls, with their arguments (and, for the
election contract, the address the contract object was created for). -/
inductive ReadCall
  | getElectionsByCommissioner (who : Option Address)
  | getAllElections
  | getElectionFullInfo (addr : Address)
  | isInitialized (election : Address)
  | getElectionDetails (election : Address)
  | getVoter (election : Address) (who : Option Address)
  | getAllCandidates (election : Address)
  | getWinner (election : Address)
  deriving DecidableEq, Repr

/-- The state-changing contract methods the script calls, with their arguments. -/
inductive MutCall
  | createElection
  | updateElectionInfo (election : Address) (title : String)
  | initializeElection (election : Address) (title description : String)
      (regStart regEnd voteStart voteEnd : JSNum)
  | updateTimings (election : Address) (regStart regEnd voteStart voteEnd : JSNum)
  | addCandidate (election : Address) (name description : String)
  | registerVoter (election : Address)
  | vote (election : Address) (id : Nat)
  | finalizeElection (election : Address)
  deriving DecidableEq, Repr

/-! ## The page -/

/-- A card of the two election lists (template at lines 123-130 and 159-166). -/
structure ElectionCard where
  onclick : String
  addr : Address
  title : String
  statusClass : String
  status : String
  short : String
  candidates : Nat
  votes : Nat
  deriving DecidableEq, Repr

/-- A card of the voter's candidate list with its vote button (lines 403-414). -/
structure VoteCard where
  name : String
  description : String
  voteCount : Nat
  voteId : Nat
  disabled : Bool
  label : String
  deriving DecidableEq, Repr

/-- Markup assigned to an `innerHTML`. -/
inductive Html
  | empty
  | info (text : String)
  | message (type msg : String)
  | elections (cards : List ElectionCard)
  | candidates (cards : List (String × String × Nat))
  | voteCards (cards : List VoteCard)
  | voterInfo (description statusClass status userStatus : String)
  | winner (name : String) (votes : Nat)
  deriving DecidableEq, Repr

/-- A write to the page. -/
inductive DomWrite
  | display (id value : String)
  | textContent (id value : String)
  | innerHTML (id : String) (html : Html)
  | value (id value : String)
  | disabled (id : String) (flag : Bool)
  | selectCard
  deriving DecidableEq, Repr

/-- The properties of the page elements the script reads or writes, by element id. -/
structure Dom where
  display : String → String
  textContent : String → String
  innerHTML : String → Html
  value : String → String
  disabled : String → Bool

/-- What a run does, in program order. `ok` tells whether the awaited promise resolved.
`submit` is the call of a state-changing contract method (it resolves with the transaction
once sent), `wait` the call `tx.wait()` on the transaction of that call, `read` the call of
a read-only method, `request` a call of `window.ethereum.request`, and `network` the call
`provider.getNetwork()` with the chain id it resolved with. -/
inductive Event
  | request (method : String) (chainId : Option String) (ok : Bool)
  | network (chainId : Option Nat)
  | signer (ok : Bool)
  | read (call : ReadCall) (ok : Bool)
  | submit (call : MutCall) (ok : Bool)
  | wait (call : MutCall) (ok : Bool)
  | consoleError (label : String) (error : ErrorObj)
  | alert (msg : String)
  | dom (write : DomWrite)
  deriving DecidableEq, Repr

/-- Module-level variables (lines 28-31), the page, and the history of the run. -/
structure State where
  userAddress : Option Address
  factoryContract : Bool
  currentElection : Option Address
  voterElection : Option Address
  isCommissioner : Bool
  dom : Dom
  trace : List Event

/-- The world outside the script. Each answer is a function of the history so far.
`getTime` is `new Date(value).getTime()`: the time value in milliseconds, or `none` for
`NaN`. `divide a b` is the value of the expression `a / b` on two integer-valued numbers
in the arithmetic of the engine (the double it rounds the quotient to); the rounding is
not modelled, the operation is taken as given. -/
structure Env where
  hasEthereum : Bool
  requestAccounts : List Event → Except ErrorObj (List Address)
  switchChain : List Event → String → Except ErrorObj Unit
  getNetwork : List Event → Except ErrorObj Nat
  getSigner : List Event → Except ErrorObj Unit
  getElectionsByCommissioner :
    List Event → Option Address → Except ErrorObj (Option (List Address))
  getAllElections : List Event → Except ErrorObj (List Address)
  getElectionFullInfo : List Event → Address → Except ErrorObj ElectionInfo
  isInitialized : List Event → Address → Except ErrorObj Bool
  getElectionDetails : List Event → Address → Except ErrorObj ElectionDetails
  getVoter : List Event → Address → Option Address → Except ErrorObj (Bool × Bool × Nat)
  getAllCandidates : List Event → Address → Except ErrorObj (List Candidate)
  getWinner : List Event → Address → Except ErrorObj (Nat × String × Nat)
  send : List Event → MutCall → Except ErrorObj Unit
  confirm : List Event → MutCall → Except ErrorObj Unit
  getTime : String → Option Int
  divide : Int → Int → ℚ

/-! ## Actions -/

/-- An `async` function body: the state it leaves, and its value or the value it threw. -/
def Act (α : Type) : Type := State → Except ErrorObj α × State

namespace Act

/-- Resolve with a value. -/
def ret {α : Type} (a : α) : Act α := fun s => (.ok a, s)

/-- Sequencing: a thrown value skips the rest. -/
def andThen {α β : Type} (m : Act α) (f : α → Act β) : Act β := fun s =>
  match m s with
  | (.ok a, s') => f a s'
  | (.error e, s') => (.error e, s')

/-- The statement `throw e`. -/
def raise {α : Type} (e : ErrorObj) : Act α := fun s => (.error e, s)

/-- The statement `try { body } catch (error) { handler }`. -/
def attempt {α : Type} (body : Act α) (handler : ErrorObj → Act α) : Act α := fun s =>
  match body s with
  | (.ok a, s') => (.ok a, s')
  | (.error e, s') => handler e s'

/-- Read the program state. -/
def look : Act State := fun s => (.ok s, s)

/-- Change the program state. -/
def change (f : State → State) : Act Unit := fun s => (.ok (), f s)

/-- A pure computation that may throw. -/
def ofExcept {α : Type} (r : Except ErrorObj α) : Act α := fun s => (r, s)

end Act

instance : Monad Act where
  pure := Act.ret
  bind := Act.andThen

/-- Append an event to the history. -/
def emit (e : Event) : Act Unit :=
  Act.change fun s => { s with trace := s.trace ++ [e] }

/-- Await an answer of the outside world and record whether it resolved. -/
def ask {α : Type} (label : Bool → Event) (answer : List Event → Except ErrorObj α) :
    Act α := fun s =>
  match answer s.trace with
  | .ok a => (.ok a, { s with trace := s.trace ++ [label true] })
  | .error e => (.error e, { s with trace := s.trace ++ [label false] })

/-- Apply a write to the page. -/
def Dom.apply (d : Dom) : DomWrite → Dom
  | .display id v => { d with display := Function.update d.display id v }
  | .textContent id v => { d with textContent := Function.update d.textContent id v }
  | .innerHTML id h => { d with innerHTML := Function.update d.innerHTML id h }
  | .value id v => { d with value := Function.update d.value id v }
  | .disabled id b => { d with disabled := Function.update d.disabled id b }
  | .selectCard => d

/-- Perform a write to the page and record it. -/
def write (w : DomWrite) : Act Unit :=
  Act.change fun s => { s with dom := s.dom.apply w, trace := s.trace ++ [.dom w] }

/-- The call `console.error(label, error)`. -/
def consoleError (label : String) (error : ErrorObj) : Act Unit :=
  emit (.consoleError label error)

/-- The call `alert(msg)`. -/
def alert (msg : String) : Act Unit :=
  emit (.alert msg)

/-- Source lines 491-496, `showMessage(id, msg, type)`. -/
def showMessage (id msg type : String) : Act Unit :=
  write (.innerHTML id (.message type msg))

/-- A read call on `factoryContract`; a `TypeError` when the variable is still `undefined`. -/
def factoryRead {α : Type} (call : ReadCall) (answer : List Event → Except ErrorObj α) :
    Act α := do
  let s ← Act.look
  if s.factoryContract then ask (.read call) answer
  else Act.raise (typeError "Cannot read properties of undefined")

/-- A state-changing call on `factoryContract`: resolves once the transaction is sent. -/
def factorySend (env : Env) (call : MutCall) : Act Unit := do
  let s ← Act.look
  if s.factoryContract then ask (.submit call) (fun t => env.send t call)
  else Act.raise (typeError "Cannot read properties of undefined")

/-- A state-changing call on an election contract: resolves once the transaction is sent. -/
def electionSend (env : Env) (call : MutCall) : Act Unit :=
  ask (.submit call) (fun t => env.send t call)

/-- The call `tx.wait()` on the transaction returned by `call`. -/
def txWait (env : Env) (call : MutCall) : Act Unit :=
  ask (.wait call) (fun t => env.confirm t call)

/-- The call `provider.getNetwork()`, giving `Number(network.chainId)`; the event records
the chain id found. -/
def getNetwork (env : Env) : Act Nat := fun s =>
  match env.getNetwork s.trace with
  | .ok n => (.ok n, { s with trace := s.trace ++ [.network (some n)] })
  | .error e => (.error e, { s with trace := s.trace ++ [.network none] })

/-- The value of a variable holding an address when it is truthy (`if (!x) return;`). -/
def selected : Option Address → Option Address
  | some a => if a = "" then none else some a
  | none => none

/-- The expression `new Date(field.value).getTime() / 1000`: `NaN` for an invalid date,
otherwise the quotient of the time value by 1000 as the engine computes it. -/
def seconds (env : Env) (value : String) : JSNum :=
  (env.getTime value).map fun ms => env.divide ms 1000

/-! ## The script -/

/-- The loop body and loop of `loadMyElections` (lines 113-131). -/
def myElectionCards (env : Env) : List Address → Act (List ElectionCard)
  | [] => pure []
  | addr :: rest => do
    let info ← factoryRead (.getElectionFullInfo addr) (fun t => env.getElectionFullInfo t addr)
    let status := info.status
    let statusClass :=
      if includes status "Open" then "badge-open"
      else if includes status "Ended" || includes status "Finalized" then "badge-closed"
      else "badge-pending"
    let card : ElectionCard :=
      { onclick := "selectElection", addr := addr, title := orElse (some info.title) "Untitled",
        statusClass := statusClass, status := status, short := shorten addr 10,
        candidates := info.candidates, votes := info.votes }
    let cards ← myElectionCards env rest
    pure (card :: cards)

/-- Source lines 100-136, `loadMyElections()`. -/
def loadMyElections (env : Env) : Act Unit :=
  Act.attempt (do
      let s ← Act.look
      let myElections ← factoryRead (.getElectionsByCommissioner s.userAddress)
        (fun t => env.getElectionsByCommissioner t s.userAddress)
      match myElections with
      | none =>
        write (.innerHTML "electionsList" (.info "No elections yet. Create your first election."))
      | some [] =>
        write (.innerHTML "electionsList" (.info "No elections yet. Create your first election."))
      | some (addr :: rest) => do
        let html ← myElectionCards env (addr :: rest)
        write (.innerHTML "electionsList" (.elections html)))
    (fun error => consoleError "Load error:" error)

/-- The loop body and loop of `loadAllElections` (lines 149-167). -/
def allElectionCards (env : Env) : List Address → Act (List ElectionCard)
  | [] => pure []
  | addr :: rest => do
    let info ← factoryRead (.getElectionFullInfo addr) (fun t => env.getElectionFullInfo t addr)
    let status := info.status
    let statusClass :=
      if includes status "Open" then "badge-open"
      else if includes status "Ended" || includes status "Finalized" then "badge-closed"
      else "badge-pending"
    let card : ElectionCard :=
      { onclick := "selectVoterElection", addr := addr,
        title := orElse (some info.title) "Untitled",
        statusClass := statusClass, status := status, short := shorten addr 10,
        candidates := info.candidates, votes := info.votes }
    let cards ← allElectionCards env rest
    pure (card :: cards)

/-- Source lines 138-172, `loadAllElections()`. -/
def loadAllElections (env : Env) : Act Unit :=
  Act.attempt (do
      let allElections ← factoryRead .getAllElections env.getAllElections
      match allElections with
      | [] => write (.innerHTML "allElections" (.info "No elections available."))
      | addr :: rest => do
        let html ← allElectionCards env (addr :: rest)
        write (.innerHTML "allElections" (.elections html)))
    (fun error => consoleError "Load error:" error)

/-- Source lines 74-98, `detectUserRole()`. -/
def detectUserRole (env : Env) : Act Unit :=
  Act.attempt (do
      let s ← Act.look
      let myElections ← factoryRead (.getElectionsByCommissioner s.userAddress)
        (fun t => env.getElectionsByCommissioner t s.userAddress)
      match myElections with
      | some (_ :: _) => do
        Act.change fun s => { s with isCommissioner := true }
        write (.textContent "roleIndicator" "Commissioner")
        write (.display "roleIndicator" "inline-block")
        write (.display "commissionerMode" "block")
        loadMyElections env
      | _ => do
        Act.change fun s => { s with isCommissioner := false }
        write (.textContent "roleIndicator" "Voter")
        write (.display "roleIndicator" "inline-block")
        write (.display "voterMode" "block")
        loadAllElections env)
    (fun error => do
      consoleError "Role detection error:" error
      write (.display "voterMode" "block")
      loadAllElections env)

/-- Source lines 33-72, `connectWallet()`. -/
def connectWallet (env : Env) : Act Unit :=
  Act.attempt (do
      if !env.hasEthereum then
        alert "Please install MetaMask"
      else do
        let accounts ← ask (.request "eth_requestAccounts" none) env.requestAccounts
        Act.change fun s => { s with userAddress := accounts.head? }
        let chainId ← getNetwork env
        if chainId ≠ 11155111 then
          ask (.request "wallet_switchEthereumChain" (some "0xaa36a7"))
            (fun t => env.switchChain t "0xaa36a7")
        ask .signer env.getSigner
        Act.change fun s => { s with factoryContract := true }
        write (.textContent "walletStatus" "Connected")
        let s ← Act.look
        match s.userAddress with
        | none => Act.raise (typeError "Cannot read properties of undefined (reading 'substring')")
        | some userAddress => do
          write (.textContent "walletAddress" (shorten userAddress 6))
          write (.disabled "connectWallet" true)
          write (.textContent "connectWallet" "Connected")
          detectUserRole env)
    (fun error => do
      consoleError "Connection error:" error
      alert "Failed to connect wallet")

/-- Source lines 174-185, `createNewElection()`. -/
def createNewElection (env : Env) : Act Unit :=
  Act.attempt (do
      showMessage "electionsList" "Creating election..." "info"
      factorySend env .createElection
      txWait env .createElection
      showMessage "electionsList" "Election created successfully" "success"
      loadMyElections env)
    (fun error => do
      consoleError "" error
      let msg ← Act.ofExcept (parseError error)
      showMessage "electionsList" msg "error")

/-- Source lines 350-377, `loadCandidates()`. -/
def loadCandidates (env : Env) : Act Unit := do
  let s ← Act.look
  match selected s.currentElection with
  | none => pure ()
  | some election =>
    Act.attempt (do
        let candidates ← ask (.read (.getAllCandidates election))
          (fun t => env.getAllCandidates t election)
        match candidates with
        | [] => write (.innerHTML "candidatesList" (.info "No candidates"))
        | c :: cs =>
          write (.innerHTML "candidatesList"
            (.candidates ((c :: cs).map fun c => (c.name, c.description, c.voteCount)))))
      (fun error => consoleError "" error)

/-- Source lines 187-206, `selectElection(addr)`. -/
def selectElection (env : Env) (addr : Address) : Act Unit := do
  Act.change fun s => { s with currentElection := some addr }
  write (.display "manageSection" "block")
  write .selectCard
  let isInit ← ask (.read (.isInitialized addr)) (fun t => env.isInitialized t addr)
  if isInit then do
    let details ← ask (.read (.getElectionDetails addr)) (fun t => env.getElectionDetails t addr)
    write (.value "setupTitle" details.title)
    write (.value "setupDescription" details.description)
  loadCandidates env

/-- Source lines 394-420, `loadVoterCandidates(hasVoted)`. -/
def loadVoterCandidates (env : Env) (hasVoted : Bool) : Act Unit := do
  let s ← Act.look
  match selected s.voterElection with
  | none => pure ()
  | some election =>
    Act.attempt (do
        let candidates ← ask (.read (.getAllCandidates election))
          (fun t => env.getAllCandidates t election)
        let html : List VoteCard := candidates.map fun c =>
          { name := c.name, description := c.description, voteCount := c.voteCount,
            voteId := c.id, disabled := hasVoted,
            label := if hasVoted then "Already Voted" else "Vote" }
        write (.innerHTML "voterCandidatesList" (.voteCards html)))
      (fun error => consoleError "" error)

/-- Source lines 208-256, `selectVoterElection(addr)`. -/
def selectVoterElection (env : Env) (addr : Address) : Act Unit := do
  Act.change fun s => { s with voterElection := some addr }
  write (.display "voterElectionSection" "block")
  let details ← ask (.read (.getElectionDetails addr)) (fun t => env.getElectionDetails t addr)
  let s ← Act.look
  let voterInfo ← ask (.read (.getVoter addr s.userAddress))
    (fun t => env.getVoter t addr s.userAddress)
  let isReg := voterInfo.1
  let hasVoted := voterInfo.2.1
  write (.textContent "voterElectionTitle" details.title)
  let statusClass := if includes details.status "Open" then "badge-open" else "badge-closed"
  let userStatus :=
    if !isReg then "❌ Not registered"
    else if hasVoted then "✅ Already voted"
    else "✅ Registered - Ready to vote"
  let showRegisterButton := if !isReg then true else if hasVoted then false else false
  write (.innerHTML "voterElectionInfo"
    (.voterInfo details.description statusClass details.status userStatus))
  if showRegisterButton then
    write (.display "voterRegisterBtn" "inline-block")
  else
    write (.display "voterRegisterBtn" "none")
  if isReg then do
    write (.display "voterCandidatesSection" "block")
    loadVoterCandidates env hasVoted
  else
    write (.display "voterCandidatesSection" "none")

/-- Source lines 451-467, `loadResults()`. -/
def loadResults (env : Env) : Act Unit := do
  let s ← Act.look
  match selected s.currentElection with
  | none => pure ()
  | some election =>
    Act.attempt (do
        let winner ← ask (.read (.getWinner election)) (fun t => env.getWinner t election)
        write (.innerHTML "resultsContent" (.winner winner.2.1 winner.2.2)))
      (fun error => consoleError "" error)

/-- Source lines 258-295, `initializeElection()`. -/
def initializeElection (env : Env) : Act Unit := do
  let s ← Act.look
  match selected s.currentElection with
  | none => pure ()
  | some currentElection =>
    let title := s.dom.value "setupTitle"
    let desc := s.dom.value "setupDescription"
    let regStart := seconds env (s.dom.value "setupRegStart")
    let regEnd := seconds env (s.dom.value "setupRegEnd")
    let voteStart := seconds env (s.dom.value "setupVoteStart")
    let voteEnd := seconds env (s.dom.value "setupVoteEnd")
    if title = "" || desc = "" then
      alert "Fill all fields"
    else
      Act.attempt (do
          showMessage "setupMessage" "Initializing..." "info"
          electionSend env
            (.initializeElection currentElection title desc regStart regEnd voteStart voteEnd)
          txWait env
            (.initializeElection currentElection title desc regStart regEnd voteStart voteEnd)
          factorySend env (.updateElectionInfo currentElection title)
          showMessage "setupMessage" "Election initialized" "success"
          loadMyElections env)
        (fun error => do
          let msg ← Act.ofExcept (parseError error)
          showMessage "setupMessage" msg "error")

/-- Source lines 297-323, `updateTimings()`. -/
def updateTimings (env : Env) : Act Unit := do
  let s ← Act.look
  match selected s.currentElection with
  | none => pure ()
  | some currentElection =>
    let regStart := seconds env (s.dom.value "setupRegStart")
    let regEnd := seconds env (s.dom.value "setupRegEnd")
    let voteStart := seconds env (s.dom.value "setupVoteStart")
    let voteEnd := seconds env (s.dom.value "setupVoteEnd")
    Act.attempt (do
        showMessage "setupMessage" "Updating..." "info"
        electionSend env (.updateTimings currentElection regStart regEnd voteStart voteEnd)
        txWait env (.updateTimings currentElection regStart regEnd voteStart voteEnd)
        showMessage "setupMessage" "Timings updated" "success")
      (fun error => do
        let msg ← Act.ofExcept (parseError error)
        showMessage "setupMessage" msg "error")

/-- Source lines 325-348, `addCandidate()`. -/
def addCandidate (env : Env) : Act Unit := do
  let s ← Act.look
  match selected s.currentElection with
  | none => pure ()
  | some currentElection =>
    let name := s.dom.value "candidateName"
    let desc := s.dom.value "candidateDescription"
    if name = "" || desc = "" then
      alert "Fill all fields"
    else
      Act.attempt (do
          showMessage "candidatesMessage" "Adding candidate..." "info"
          electionSend env (.addCandidate currentElection name desc)
          txWait env (.addCandidate currentElection name desc)
          showMessage "candidatesMessage" "Candidate added" "success"
          write (.value "candidateName" "")
          write (.value "candidateDescription" "")
          loadCandidates env)
        (fun error => do
          let msg ← Act.ofExcept (parseError error)
          showMessage "candidatesMessage" msg "error")

/-- Source lines 379-392, `voterRegister()`. -/
def voterRegister (env : Env) : Act Unit := do
  let s ← Act.look
  match selected s.voterElection with
  | none => pure ()
  | some voterElection =>
    Act.attempt (do
        showMessage "voterMessage" "Registering..." "info"
        electionSend env (.registerVoter voterElection)
        txWait env (.registerVoter voterElection)
        showMessage "voterMessage" "Registered successfully" "success"
        selectVoterElection env voterElection)
      (fun error => do
        let msg ← Act.ofExcept (parseError error)
        showMessage "voterMessage" msg "error")

/-- Source lines 422-435, `voterCastVote(id)`. -/
def voterCastVote (env : Env) (id : Nat) : Act Unit := do
  let s ← Act.look
  match selected s.voterElection with
  | none => pure ()
  | some voterElection =>
    Act.attempt (do
        showMessage "voterMessage" "Casting vote..." "info"
        electionSend env (.vote voterElection id)
        txWait env (.vote voterElection id)
        showMessage "voterMessage" "✅ Vote cast successfully!" "success"
        selectVoterElection env voterElection)
      (fun error => do
        let msg ← Act.ofExcept (parseError error)
        showMessage "voterMessage" msg "error")

/-- Source lines 437-449, `finalizeElection()`. -/
def finalizeElection (env : Env) : Act Unit := do
  let s ← Act.look
  match selected s.currentElection with
  | none => pure ()
  | some currentElection =>
    Act.attempt (do
        electionSend env (.finalizeElection currentElection)
        txWait env (.finalizeElection currentElection)
        alert "Election finalized"
        loadResults env)
      (fun error => do
        let msg ← Act.ofExcept (parseError error)
        alert msg)

/-! ## Vocabulary of the properties -/

deriving instance DecidableEq for Except

/-- The badge class as the specification words it: a function of the status string. -/
def badgeClass (status : String) : String :=
  if includes status "Open" then "badge-open"
  else if includes status "Ended" || includes status "Finalized" then "badge-closed"
  else "badge-pending"

/-- The value of one hexadecimal digit. -/
def hexDigit (c : Char) : Option Nat :=
  if '0' ≤ c ∧ c ≤ '9' then some (c.toNat - '0'.toNat)
  else if 'a' ≤ c ∧ c ≤ 'f' then some (c.toNat - 'a'.toNat + 10)
  else if 'A' ≤ c ∧ c ≤ 'F' then some (c.toNat - 'A'.toNat + 10)
  else none

/-- The number denoted by a list of hexadecimal digits, given the value read so far. -/
def hexDigits : List Char → Nat → Option Nat
  | [], acc => some acc
  | c :: cs, acc =>
    match hexDigit c with
    | some d => hexDigits cs (16 * acc + d)
    | none => none

/-- The number denoted by a chain id string of the wallet interface: `0x` followed by
at least one hexadecimal digit. -/
def hexValue (s : String) : Option Nat :=
  match s.data with
  | '0' :: 'x' :: c :: cs => hexDigits (c :: cs) 0
  | _ => none

/-- The events a call adds to the history when started in state `s`. -/
def Act.events {α : Type} (a : Act α) (s : State) : List Event :=
  (a s).2.trace.drop s.trace.length

/-- Events of the list loaders: read calls, console output and `innerHTML` writes other
than the notices of `showMessage`. -/
def Event.isLoad : Event → Bool
  | .read _ _ => true
  | .consoleError _ _ => true
  | .dom (.innerHTML _ (.message _ _)) => false
  | .dom (.innerHTML _ _) => true
  | _ => false

/-- Events that neither submit a state-changing call nor announce a success. -/
def Event.isQuiet : Event → Bool
  | .submit _ _ => false
  | .dom (.innerHTML _ (.message type _)) => type != "success"
  | .alert msg => msg != "Election finalized"
  | _ => true

/-- Events of role detection: read calls, console output and page writes. -/
def Event.isView : Event → Bool
  | .read _ _ => true
  | .consoleError _ _ => true
  | .dom _ => true
  | _ => false

/-- A call of a contract method or the wait for a transaction. -/
def Event.isContractCall : Event → Bool
  | .read _ _ => true
  | .submit _ _ => true
  | .wait _ _ => true
  | _ => false

/-- The submission of a state-changing contract call. -/
def Event.isSubmit : Event → Bool
  | .submit _ _ => true
  | _ => false

/-- A success notice: `showMessage(_, _, "success")`, or the `alert("Election finalized")`
of `finalizeElection`. -/
def Event.isSuccessNotice : Event → Bool
  | .dom (.innerHTML _ (.message type _)) => type == "success"
  | .alert msg => msg == "Election finalized"
  | _ => false

/-- An error notice carrying `msg`: `showMessage(_, msg, "error")` or `alert(msg)`. -/
def Event.isErrorNotice (msg : String) : Event → Bool
  | .dom (.innerHTML _ (.message type m)) => type == "error" && m == msg
  | .alert m => m == msg
  | _ => false

/-- The mode panels (`commissionerMode`, `voterMode`) made visible by a list of events. -/
def modesShown : List Event → List String
  | [] => []
  | .dom (.display id value) :: rest =>
    if (id = "commissionerMode" ∨ id = "voterMode") ∧ value = "block" then
      id :: modesShown rest
    else modesShown rest
  | _ :: rest => modesShown rest

/-- Whether the page offers an enabled vote button: the candidates section is displayed
and its list holds a button that is not disabled. -/
def offersEnabledVote (d : Dom) : Bool :=
  d.display "voterCandidatesSection" == "block" &&
    match d.innerHTML "voterCandidatesList" with
    | .voteCards cards => cards.any fun c => !c.disabled
    | _ => false

/-- Whether the page offers a vote button at all. -/
def offersVote (d : Dom) : Bool :=
  d.display "voterCandidatesSection" == "block" &&
    match d.innerHTML "voterCandidatesList" with
    | .voteCards cards => !cards.isEmpty
    | _ => false

/-- Every final state of the action is related to its initial state. -/
def Act.Steps {α : Type} (R : State → State → Prop) (a : Act α) : Prop :=
  ∀ s, R s (a s).2

/-- A relation between states that is kept along every sequence of steps. -/
structure Preorderly (R : State → State → Prop) : Prop where
  refl : ∀ s, R s s
  trans : ∀ s₁ s₂ s₃, R s₁ s₂ → R s₂ s₃ → R s₁ s₃

/-- The history grew by events that all satisfy `p`. -/
def Appends (p : Event → Prop) (s s' : State) : Prop :=
  ∃ l, s'.trace = s.trace ++ l ∧ ∀ e ∈ l, p e

/-- The step of a list loader: the history grew by loader events; the module variables
and the `display` and `textContent` properties of the page are unchanged. -/
def Loads (s s' : State) : Prop :=
  Appends (fun e => e.isLoad = true) s s' ∧
    s'.isCommissioner = s.isCommissioner ∧
    s'.userAddress = s.userAddress ∧
    s'.factoryContract = s.factoryContract ∧
    s'.currentElection = s.currentElection ∧
    s'.voterElection = s.voterElection ∧
    s'.dom.display = s.dom.display ∧
    s'.dom.textContent = s.dom.textContent ∧
    s'.dom.value = s.dom.value ∧
    s'.dom.disabled = s.dom.disabled

/-! ## Sample pages and environments -/

/-- A page with nothing filled in or shown. -/
def blankDom : Dom :=
  { display := fun _ => "none", textContent := fun _ => "", innerHTML := fun _ => .empty,
    value := fun _ => "", disabled := fun _ => false }

/-- The state right after the page has loaded (lines 28-31). -/
def initialState : State :=
  { userAddress := none, factoryContract := false, currentElection := none,
    voterElection := none, isCommissioner := false, dom := blankDom, trace := [] }

/-- The state of a connected account. -/
def connectedState : State :=
  { initialState with userAddress := some "0x00000000000000000000000000000000000000A1",
                      factoryContract := true }

/-- An error as the provider reports a failed network request. -/
def networkError : ErrorObj :=
  { code := none, message := some "network error", reason := none }

/-- An error object without `code`, `message` or `reason`. -/
def bareError : ErrorObj :=
  { code := none, message := none, reason := none }

/-- An environment in which every request succeeds: one election `0xE1` with status
`VotingOpen` and two candidates; the account is registered and has not voted. Every date
field holds the whole second 1700000000000 ms, whose quotient by 1000 is exact. -/
def calmEnv : Env where
  hasEthereum := true
  requestAccounts := fun _ => .ok ["0x00000000000000000000000000000000000000A1"]
  switchChain := fun _ _ => .ok ()
  getNetwork := fun _ => .ok 11155111
  getSigner := fun _ => .ok ()
  getElectionsByCommissioner := fun _ _ => .ok (some ["0xE1"])
  getAllElections := fun _ => .ok ["0xE1"]
  getElectionFullInfo := fun _ _ =>
    .ok { field0 := "0x00000000000000000000000000000000000000A1", title := "Board",
          field2 := "0xE1", field3 := 0, status := "VotingOpen", candidates := 2, votes := 0 }
  isInitialized := fun _ _ => .ok true
  getElectionDetails := fun _ _ =>
    .ok { title := "Board", description := "Board election", field2 := "0xE1", field3 := 0,
          field4 := 0, status := "VotingOpen" }
  getVoter := fun _ _ _ => .ok (true, false, 0)
  getAllCandidates := fun _ _ =>
    .ok [{ id := 1, name := "Ada", description := "", voteCount := 0, existsFlag := true },
         { id := 2, name := "Bob", description := "", voteCount := 0, existsFlag := true }]
  getWinner := fun _ _ => .ok (1, "Ada", 0)
  send := fun _ _ => .ok ()
  confirm := fun _ _ => .ok ()
  getTime := fun _ => some 1700000000000
  divide := fun a b => (a : ℚ) / (b : ℚ)

/-- The cards of an election list carry the badge class that `badgeClass` gives for the
status they show. -/
def Event.badgesAgree : Event → Prop
  | .dom (.innerHTML _ (.elections cards)) =>
    ∀ c ∈ cards, c.statusClass = badgeClass c.status
  | _ => True

/-- Every value the action resolves with satisfies `Q`. -/
def Act.Yields {α : Type} (a : Act α) (Q : α → Prop) : Prop :=
  ∀ s v, (a s).1 = .ok v → Q v

/-- The environment `calmEnv` with every read of an election contract failing. -/
def unreadableEnv : Env :=
  { calmEnv with
    isInitialized := fun _ _ => .error networkError
    getElectionDetails := fun _ _ => .error networkError
    getVoter := fun _ _ _ => .error networkError }

/-- The environment `calmEnv` with every submission rejected by an error object that
has neither `code`, `message` nor `reason`. -/
def bareRejectEnv : Env :=
  { calmEnv with send := fun _ _ => .error bareError }

/-- A connected commissioner who selected election `0xE1` and filled in the setup form. -/
def setupState : State :=
  { connectedState with
    currentElection := some "0xE1"
    isCommissioner := true
    dom := { blankDom with
      value := fun id =>
        if id = "setupTitle" then "Board"
        else if id = "setupDescription" then "Board election"
        else "2023-11-14T22:13" } }

/-- A connected voter who selected election `0xE1`. -/
def voterState : State :=
  { connectedState with voterElection := some "0xE1" }

/-- Events other than wallet requests and network detection. -/
def Event.isAfterGate : Event → Bool
  | .request _ _ _ => false
  | .network _ => false
  | _ => true

/-- The part of `connectWallet` after the network check (lines 55-67). -/
def connectRest (env : Env) : Act Unit := do
  ask .signer env.getSigner
  Act.change fun s => { s with factoryContract := true }
  write (.textContent "walletStatus" "Connected")
  let s ← Act.look
  match s.userAddress with
  | none => Act.raise (typeError "Cannot read properties of undefined (reading 'substring')")
  | some userAddress => do
    write (.textContent "walletAddress" (shorten userAddress 6))
    write (.disabled "connectWallet" true)
    write (.textContent "connectWallet" "Connected")
    detectUserRole env

/-- The outcome of the call `factoryContract.getElectionsByCommissioner(userAddress)` when it
is made in state `s`: the contract's answer, or the `TypeError` of calling a method of a
contract object that was never created. -/
def roleAnswer (env : Env) (s : State) : Except ErrorObj (Option (List Address)) :=
  if s.factoryContract then env.getElectionsByCommissioner s.trace s.userAddress
  else .error (typeError "Cannot read properties of undefined")

/-- The state in which `detectUserRole` starts `loadMyElections`. -/
def commissionerView (s : State) : State :=
  { s with
    isCommissioner := true
    dom := ((s.dom.apply (.textContent "roleIndicator" "Commissioner")).apply
      (.display "roleIndicator" "inline-block")).apply (.display "commissionerMode" "block")
    trace := s.trace ++
      [.read (.getElectionsByCommissioner s.userAddress) true,
       .dom (.textContent "roleIndicator" "Commissioner"),
       .dom (.display "roleIndicator" "inline-block"),
       .dom (.display "commissionerMode" "block")] }

/-- The state in which `detectUserRole` starts `loadAllElections` after an empty answer. -/
def voterView (s : State) : State :=
  { s with
    isCommissioner := false
    dom := ((s.dom.apply (.textContent "roleIndicator" "Voter")).apply
      (.display "roleIndicator" "inline-block")).apply (.display "voterMode" "block")
    trace := s.trace ++
      [.read (.getElectionsByCommissioner s.userAddress) true,
       .dom (.textContent "roleIndicator" "Voter"),
       .dom (.display "roleIndicator" "inline-block"),
       .dom (.display "voterMode" "block")] }

/-- The state in which `detectUserRole` starts `loadAllElections` after a failed call. -/
def fallbackView (s : State) (error : ErrorObj) : State :=
  { s with
    dom := s.dom.apply (.display "voterMode" "block")
    trace := s.trace ++
      (if s.factoryContract then [.read (.getElectionsByCommissioner s.userAddress) false]
       else []) ++
      [.consoleError "Role detection error:" error, .dom (.display "voterMode" "block")] }

/-- The environment `calmEnv` with a failing `getElectionsByCommissioner`. -/
def roleErrorEnv : Env :=
  { calmEnv with getElectionsByCommissioner := fun _ _ => .error networkError }

/-- A connected account already classified as commissioner by an earlier call. -/
def commissionerState : State :=
  { connectedState with
    isCommissioner := true
    dom := { blankDom with display := fun id =>
      if id = "commissionerMode" then "block" else "none" } }

/-- The cards `loadVoterCandidates(hasVoted)` renders for a list of candidates. -/
def voteCardsOf (hasVoted : Bool) (candidates : List Candidate) : List VoteCard :=
  candidates.map fun c =>
    { name := c.name, description := c.description, voteCount := c.voteCount,
      voteId := c.id, disabled := hasVoted,
      label := if hasVoted then "Already Voted" else "Vote" }

/-- The status line of the voter view, as the specification words it, after the mark
(a cross or a check) that precedes it on the page. -/
def statusLine (registered hasVoted : Bool) : String :=
  if !registered then "Not registered"
  else if hasVoted then "Already voted"
  else "Registered - Ready to vote"

/-- The mark that precedes the status line on the page. -/
def statusMark (registered : Bool) : String :=
  if registered then "✅ " else "❌ "

/-- The page of a registered account that has not voted, as `selectVoterElection` leaves it
in the environment `calmEnv`: the candidate list holds two enabled vote buttons. -/
def readyToVoteState : State :=
  (selectVoterElection calmEnv "0xE1" connectedState).2

/-- The environment after the vote was cast: the account has voted, and the read of the
candidate list fails. -/
def votedEnv : Env :=
  { calmEnv with
    getVoter := fun _ _ _ => .ok (true, true, 1)
    getAllCandidates := fun _ _ => .error networkError }

/-- The writes of `selectVoterElection(addr)` that follow its two reads, up to the point
where it turns to the candidate list. -/
def voterPageWrites (details : ElectionDetails) (isReg hasVoted : Bool) : List DomWrite :=
  [.textContent "voterElectionTitle" details.title,
   .innerHTML "voterElectionInfo"
     (.voterInfo details.description
       (if includes details.status "Open" then "badge-open" else "badge-closed")
       details.status (statusMark isReg ++ statusLine isReg hasVoted)),
   .display "voterRegisterBtn" (if isReg then "none" else "inline-block"),
   .display "voterCandidatesSection" (if isReg then "block" else "none")]

/-- The state in which `selectVoterElection(addr)` turns to the candidate list. -/
def voterPage (s : State) (addr : Address) (details : ElectionDetails)
    (isReg hasVoted : Bool) : State :=
  { s with
    voterElection := some addr
    dom := (voterPageWrites details isReg hasVoted).foldl Dom.apply
      (s.dom.apply (.display "voterElectionSection" "block"))
    trace := s.trace ++
      [.dom (.display "voterElectionSection" "block"),
       .read (.getElectionDetails addr) true,
       .read (.getVoter addr s.userAddress) true] ++
      (voterPageWrites details isReg hasVoted).map Event.dom }

/-- The environment `calmEnv` on another chain, with the switch request declined. -/
def wrongChainEnv : Env :=
  { calmEnv with
    getNetwork := fun _ => .ok 1
    switchChain := fun _ _ =>
      .error { code := some 4001, message := some "User rejected the request.",
               reason := none } }

/-- The environment `calmEnv` on another chain, with the switch request granted, for an
account that created no election. -/
def switchedEnv : Env :=
  { calmEnv with
    getNetwork := fun _ => .ok 1
    getElectionsByCommissioner := fun _ _ => .ok (some []) }

/-- The events of `connectWallet` in `switchedEnv` up to its first contract call. -/
def switchedGate : List Event :=
  [.request "eth_requestAccounts" none true, .network (some 1),
   .request "wallet_switchEthereumChain" (some "0xaa36a7") true, .signer true,
   .dom (.textContent "walletStatus" "Connected"),
   .dom (.textContent "walletAddress" "0x0000...00A1"),
   .dom (.disabled "connectWallet" true),
   .dom (.textContent "connectWallet" "Connected")]

/-- The events of `connectWallet` in `switchedEnv` after its first contract call. -/
def switchedView : List Event :=
  [.dom (.textContent "roleIndicator" "Voter"),
   .dom (.display "roleIndicator" "inline-block"),
   .dom (.display "voterMode" "block"),
   .read .getAllElections true,
   .read (.getElectionFullInfo "0xE1") true,
   .dom (.innerHTML "allElections" (.elections
    [{ onclick := "selectVoterElection", addr := "0xE1", title := "Board",
       statusClass := "badge-open", status := "VotingOpen", short := "0xE1...",
       candidates := 2, votes := 0 }]))]

/-- What the `catch` clause `showMessage(id, parseError(error), "error")` adds to the
history: the error notice, or nothing when `parseError` itself throws. -/
def report (id : String) (error : ErrorObj) : List Event :=
  match parseError error with
  | .ok msg => [.dom (.innerHTML id (.message "error" msg))]
  | .error _ => []

/-- What the `catch` clause `alert(parseError(error))` adds to the history. -/
def reportAlert (error : ErrorObj) : List Event :=
  match parseError error with
  | .ok msg => [.alert msg]
  | .error _ => []

/-- The notice `showMessage(id, text, "info")` as an event. -/
def notice (id text : String) : Event :=
  .dom (.innerHTML id (.message "info" text))

/-- The notice `showMessage(id, text, "success")` as an event. -/
def success (id text : String) : Event :=
  .dom (.innerHTML id (.message "success" text))

/-- The state after a write to the page. -/
def State.noted (s : State) (w : DomWrite) : State :=
  { s with dom := s.dom.apply w, trace := s.trace ++ [.dom w] }

/-- The state after an event that leaves variables and page as they are. -/
def State.logged (s : State) (e : Event) : State :=
  { s with trace := s.trace ++ [e] }

/-- The environment `calmEnv` with date fields that carry milliseconds: the time value is
1700000000123, and the engine rounds its quotient by 1000 to the double
7130316800515899 / 2 ^ 22. -/
def millisEnv : Env :=
  { calmEnv with
    getTime := fun _ => some 1700000000123
    divide := fun _ _ => 7130316800515899 / 4194304 }

/-! ## Composition of steps -/

theorem steps_pure {α : Type} {R : State → State → Prop} (hR : Preorderly R) (a : α) :
    Act.Steps R (pure a : Act α) :=
  fun s => hR.refl s

theorem steps_bind {α β : Type} {R : State → State → Prop} (hR : Preorderly R)
    {m : Act α} {f : α → Act β}
    (hm : Act.Steps R m) (hf : ∀ a, Act.Steps R (f a)) : Act.Steps R (m >>= f) := by
  intro s
  show R s (Act.andThen m f s).2
  unfold Act.andThen
  have h1 := hm s
  cases hms : m s with
  | mk r s' =>
    rw [hms] at h1
    cases r with
    | ok a => exact hR.trans _ _ _ h1 (hf a s')
    | error e => exact h1

theorem steps_attempt {α : Type} {R : State → State → Prop} (hR : Preorderly R)
    {m : Act α} {h : ErrorObj → Act α}
    (hm : Act.Steps R m) (hh : ∀ e, Act.Steps R (h e)) : Act.Steps R (Act.attempt m h) := by
  intro s
  unfold Act.attempt
  have h1 := hm s
  cases hms : m s with
  | mk r s' =>
    rw [hms] at h1
    cases r with
    | ok a => exact h1
    | error e => exact hR.trans _ _ _ h1 (hh e s')

theorem steps_look {R : State → State → Prop} (hR : Preorderly R) : Act.Steps R Act.look :=
  fun s => hR.refl s

theorem steps_raise {α : Type} {R : State → State → Prop} (hR : Preorderly R) (e : ErrorObj) :
    Act.Steps R (Act.raise e : Act α) :=
  fun s => hR.refl s

theorem steps_ofExcept {α : Type} {R : State → State → Prop} (hR : Preorderly R)
    (r : Except ErrorObj α) : Act.Steps R (Act.ofExcept r) :=
  fun s => hR.refl s

theorem appends_preorderly (p : Event → Prop) : Preorderly (Appends p) where
  refl s := ⟨[], by simp, by simp⟩
  trans s₁ s₂ s₃ := by
    rintro ⟨l₁, h₁, p₁⟩ ⟨l₂, h₂, p₂⟩
    refine ⟨l₁ ++ l₂, by rw [h₂, h₁, List.append_assoc], ?_⟩
    intro e he
    rcases List.mem_append.mp he with h | h
    · exact p₁ e h
    · exact p₂ e h

theorem appends_mono {p q : Event → Prop} (h : ∀ e, p e → q e) {s s' : State}
    (hs : Appends p s s') : Appends q s s' := by
  obtain ⟨l, hl, hp⟩ := hs
  exact ⟨l, hl, fun e he => h e (hp e he)⟩

theorem events_of_appends {α : Type} {p : Event → Prop} {a : Act α} {s : State}
    (h : Appends p s (a s).2) : (a s).2.trace = s.trace ++ a.events s ∧ ∀ e ∈ a.events s, p e := by
  obtain ⟨l, hl, hp⟩ := h
  have : a.events s = l := by
    unfold Act.events
    rw [hl]
    exact List.drop_left _ _
  rw [this]
  exact ⟨hl, hp⟩

theorem loads_preorderly : Preorderly Loads where
  refl s := ⟨(appends_preorderly _).refl s, rfl, rfl, rfl, rfl, rfl, rfl, rfl, rfl, rfl⟩
  trans s₁ s₂ s₃ := by
    rintro ⟨a, b1, b2, b3, b4, b5, b6, b7, b8, b9⟩ ⟨c, d1, d2, d3, d4, d5, d6, d7, d8, d9⟩
    exact ⟨(appends_preorderly _).trans _ _ _ a c, d1.trans b1, d2.trans b2, d3.trans b3,
      d4.trans b4, d5.trans b5, d6.trans b6, d7.trans b7, d8.trans b8, d9.trans b9⟩

/-! ## Steps of the primitive actions -/

theorem ask_appends {α : Type} {p : Event → Prop} (label : Bool → Event)
    (answer : List Event → Except ErrorObj α) (h : ∀ b, p (label b)) :
    Act.Steps (Appends p) (ask label answer) := by
  intro s
  unfold ask
  cases answer s.trace with
  | ok a => exact ⟨[label true], rfl, by simp [h]⟩
  | error e => exact ⟨[label false], rfl, by simp [h]⟩

theorem write_appends {p : Event → Prop} (w : DomWrite) (h : p (.dom w)) :
    Act.Steps (Appends p) (write w) :=
  fun _ => ⟨[.dom w], rfl, by simp [h]⟩

theorem emit_appends {p : Event → Prop} (e : Event) (h : p e) :
    Act.Steps (Appends p) (emit e) :=
  fun _ => ⟨[e], rfl, by simp [h]⟩

theorem change_appends {p : Event → Prop} (f : State → State)
    (h : ∀ s, (f s).trace = s.trace) : Act.Steps (Appends p) (Act.change f) :=
  fun s => ⟨[], by simp [Act.change, h], by simp⟩

theorem factoryRead_appends {α : Type} {p : Event → Prop} (call : ReadCall)
    (answer : List Event → Except ErrorObj α) (h : ∀ b, p (.read call b)) :
    Act.Steps (Appends p) (factoryRead call answer) := by
  unfold factoryRead
  refine steps_bind (appends_preorderly p) (steps_look (appends_preorderly p)) fun s => ?_
  split
  · exact ask_appends _ _ h
  · exact steps_raise (appends_preorderly p) _

theorem ask_loads {α : Type} (label : Bool → Event)
    (answer : List Event → Except ErrorObj α) (h : ∀ b, (label b).isLoad = true) :
    Act.Steps Loads (ask label answer) := by
  intro s
  refine ⟨ask_appends label answer h s, ?_⟩
  unfold ask
  cases answer s.trace <;> exact ⟨rfl, rfl, rfl, rfl, rfl, rfl, rfl, rfl, rfl⟩

theorem factoryRead_loads {α : Type} (call : ReadCall)
    (answer : List Event → Except ErrorObj α) :
    Act.Steps Loads (factoryRead call answer) := by
  unfold factoryRead
  refine steps_bind loads_preorderly (steps_look loads_preorderly) fun s => ?_
  split
  · exact ask_loads _ _ fun _ => rfl
  · exact steps_raise loads_preorderly _

theorem innerHTML_loads (id : String) (html : Html)
    (h : (Event.dom (.innerHTML id html)).isLoad = true) :
    Act.Steps Loads (write (.innerHTML id html)) :=
  fun s => ⟨⟨[.dom (.innerHTML id html)], rfl, by simp [h]⟩,
    rfl, rfl, rfl, rfl, rfl, rfl, rfl, rfl, rfl⟩

theorem consoleError_loads (label : String) (error : ErrorObj) :
    Act.Steps Loads (consoleError label error) :=
  fun s => ⟨⟨[.consoleError label error], rfl, by simp [Event.isLoad]⟩,
    rfl, rfl, rfl, rfl, rfl, rfl, rfl, rfl, rfl⟩

/-! ## The list loaders -/

theorem myElectionCards_loads (env : Env) (addrs : List Address) :
    Act.Steps Loads (myElectionCards env addrs) := by
  induction addrs with
  | nil => exact steps_pure loads_preorderly _
  | cons addr rest ih =>
    unfold myElectionCards
    refine steps_bind loads_preorderly (factoryRead_loads _ _) fun info => ?_
    refine steps_bind loads_preorderly ih fun cards => ?_
    exact steps_pure loads_preorderly _

theorem allElectionCards_loads (env : Env) (addrs : List Address) :
    Act.Steps Loads (allElectionCards env addrs) := by
  induction addrs with
  | nil => exact steps_pure loads_preorderly _
  | cons addr rest ih =>
    unfold allElectionCards
    refine steps_bind loads_preorderly (factoryRead_loads _ _) fun info => ?_
    refine steps_bind loads_preorderly ih fun cards => ?_
    exact steps_pure loads_preorderly _

theorem loadMyElections_loads (env : Env) : Act.Steps Loads (loadMyElections env) := by
  unfold loadMyElections
  refine steps_attempt loads_preorderly ?_ fun e => consoleError_loads _ _
  refine steps_bind loads_preorderly (steps_look loads_preorderly) fun s => ?_
  refine steps_bind loads_preorderly (factoryRead_loads _ _) fun my => ?_
  split
  · exact innerHTML_loads _ _ rfl
  · exact innerHTML_loads _ _ rfl
  · exact steps_bind loads_preorderly (myElectionCards_loads env _) fun _ => innerHTML_loads _ _ rfl

theorem loadAllElections_loads (env : Env) : Act.Steps Loads (loadAllElections env) := by
  unfold loadAllElections
  refine steps_attempt loads_preorderly ?_ fun e => consoleError_loads _ _
  refine steps_bind loads_preorderly (factoryRead_loads _ _) fun all => ?_
  split
  · exact innerHTML_loads _ _ rfl
  · exact steps_bind loads_preorderly (allElectionCards_loads env _) fun _ => innerHTML_loads _ _ rfl

theorem loadCandidates_loads (env : Env) : Act.Steps Loads (loadCandidates env) := by
  unfold loadCandidates
  refine steps_bind loads_preorderly (steps_look loads_preorderly) fun s => ?_
  split
  · exact steps_pure loads_preorderly _
  · refine steps_attempt loads_preorderly ?_ fun e => consoleError_loads _ _
    refine steps_bind loads_preorderly (ask_loads _ _ fun _ => rfl) fun cs => ?_
    split
    · exact innerHTML_loads _ _ rfl
    · exact innerHTML_loads _ _ rfl

theorem loadVoterCandidates_loads (env : Env) (hasVoted : Bool) :
    Act.Steps Loads (loadVoterCandidates env hasVoted) := by
  unfold loadVoterCandidates
  refine steps_bind loads_preorderly (steps_look loads_preorderly) fun s => ?_
  split
  · exact steps_pure loads_preorderly _
  · refine steps_attempt loads_preorderly ?_ fun e => consoleError_loads _ _
    exact steps_bind loads_preorderly (ask_loads _ _ fun _ => rfl) fun cs => innerHTML_loads _ _ rfl

theorem loadResults_loads (env : Env) : Act.Steps Loads (loadResults env) := by
  unfold loadResults
  refine steps_bind loads_preorderly (steps_look loads_preorderly) fun s => ?_
  split
  · exact steps_pure loads_preorderly _
  · refine steps_attempt loads_preorderly ?_ fun e => consoleError_loads _ _
    exact steps_bind loads_preorderly (ask_loads _ _ fun _ => rfl) fun w => innerHTML_loads _ _ rfl

/-! ## Functions that cannot throw -/

theorem attempt_ok {α : Type} (body : Act α) (handler : ErrorObj → Act α) (s : State)
    (h : ∀ e s', ∃ a, (handler e s').1 = .ok a) : ∃ a, (Act.attempt body handler s).1 = .ok a := by
  unfold Act.attempt
  cases hb : body s with
  | mk r s' =>
    cases r with
    | ok a => exact ⟨a, rfl⟩
    | error e => exact h e s'

theorem loadMyElections_ok (env : Env) (s : State) : (loadMyElections env s).1 = .ok () := by
  obtain ⟨a, h⟩ := attempt_ok _ (fun error => consoleError "Load error:" error) s
    (fun _ _ => ⟨(), rfl⟩)
  exact h

theorem loadAllElections_ok (env : Env) (s : State) : (loadAllElections env s).1 = .ok () := by
  obtain ⟨a, h⟩ := attempt_ok _ (fun error => consoleError "Load error:" error) s
    (fun _ _ => ⟨(), rfl⟩)
  exact h

/-! ## Running the primitive actions -/

theorem run_pure {α : Type} (a : α) (s : State) : (pure a : Act α) s = (.ok a, s) := rfl

theorem run_bind {α β : Type} (m : Act α) (f : α → Act β) (s : State) :
    (m >>= f) s = match m s with
      | (.ok a, s') => f a s'
      | (.error e, s') => (.error e, s') := rfl

theorem run_attempt {α : Type} (m : Act α) (h : ErrorObj → Act α) (s : State) :
    Act.attempt m h s = match m s with
      | (.ok a, s') => (.ok a, s')
      | (.error e, s') => h e s' := rfl

theorem run_look (s : State) : Act.look s = (.ok s, s) := rfl

theorem run_raise {α : Type} (e : ErrorObj) (s : State) :
    (Act.raise e : Act α) s = (.error e, s) := rfl

theorem run_ofExcept {α : Type} (r : Except ErrorObj α) (s : State) :
    Act.ofExcept r s = (r, s) := rfl

theorem run_change (f : State → State) (s : State) : Act.change f s = (.ok (), f s) := rfl

theorem run_emit (e : Event) (s : State) :
    emit e s = (.ok (), { s with trace := s.trace ++ [e] }) := rfl

theorem run_alert (msg : String) (s : State) :
    alert msg s = (.ok (), { s with trace := s.trace ++ [.alert msg] }) := rfl

theorem run_consoleError (label : String) (error : ErrorObj) (s : State) :
    consoleError label error s
      = (.ok (), { s with trace := s.trace ++ [.consoleError label error] }) := rfl

theorem run_write (w : DomWrite) (s : State) :
    write w s = (.ok (), { s with dom := s.dom.apply w, trace := s.trace ++ [.dom w] }) := rfl

theorem run_showMessage (id msg type : String) (s : State) :
    showMessage id msg type s
      = (.ok (), { s with dom := s.dom.apply (.innerHTML id (.message type msg)),
                          trace := s.trace ++ [.dom (.innerHTML id (.message type msg))] }) :=
  rfl

theorem run_ask {α : Type} (label : Bool → Event)
    (answer : List Event → Except ErrorObj α) (s : State) :
    ask label answer s = match answer s.trace with
      | .ok a => (.ok a, { s with trace := s.trace ++ [label true] })
      | .error e => (.error e, { s with trace := s.trace ++ [label false] }) := rfl

theorem run_getNetwork (env : Env) (s : State) :
    getNetwork env s = match env.getNetwork s.trace with
      | .ok n => (.ok n, { s with trace := s.trace ++ [.network (some n)] })
      | .error e => (.error e, { s with trace := s.trace ++ [.network none] }) := rfl

set_option maxRecDepth 100000

/-! ## `parseError` -/

/-- The mapping `parseError` applies to an error that carries a message and whose code is
not 4001: known substrings first, then the reason, the message, the generic text. -/
theorem parseError_of_message (error : ErrorObj) (message : String)
    (hcode : error.code ≠ some 4001) (hmsg : error.message = some message) :
    parseError error = .ok
      (if includes message "Already initialized" then "Already initialized"
       else if includes message "insufficient funds" then "Insufficient ETH"
       else orElse error.reason (orElse (some message) "Transaction failed")) := by
  unfold parseError
  rw [if_neg hcode, hmsg]
  simp only
  split
  · rfl
  · split <;> rfl

/-- C1: for every error object whose code is 4001, `parseError` returns exactly
"Transaction rejected", whatever its message and reason are, also without a message. -/
theorem parseError_user_rejected (error : ErrorObj) (h : error.code = some 4001) :
    parseError error = .ok "Transaction rejected" := by
  unfold parseError
  rw [if_pos h]

theorem parseError_user_rejected_witness :
    parseError { code := some 4001, message := none, reason := none }
        = .ok "Transaction rejected" ∧
      parseError { code := some 4001,
                   message := some "Already initialized: insufficient funds",
                   reason := some "Already initialized" }
        = .ok "Transaction rejected" :=
  ⟨parseError_user_rejected _ rfl, parseError_user_rejected _ rfl⟩

/-- C2: at an error object that carries neither a code, a message nor a reason,
`parseError` does not return the generic "Transaction failed": it throws a `TypeError`,
because `error.message.includes` is evaluated before the fallback chain is reached. -/
theorem parseError_throws_without_message :
    parseError bareError
      = .error (typeError "Cannot read properties of undefined (reading 'includes')") := by
  decide

/-! ## Badge classes -/

theorem myElectionCards_yields (env : Env) (addrs : List Address) :
    (myElectionCards env addrs).Yields fun cards =>
      ∀ c ∈ cards, c.statusClass = badgeClass c.status := by
  induction addrs with
  | nil =>
    intro s v h
    have : v = [] := by
      have h2 : (Except.ok [] : Except ErrorObj (List ElectionCard)) = .ok v := h
      injection h2 with h3
      exact h3.symm
    simp [this]
  | cons addr rest ih =>
    intro s v h
    unfold myElectionCards at h
    change (Act.andThen _ _ s).1 = _ at h
    unfold Act.andThen at h
    cases h1 : factoryRead (ReadCall.getElectionFullInfo addr)
        (fun t => env.getElectionFullInfo t addr) s with
    | mk r s1 =>
      rw [h1] at h
      cases r with
      | error e => simp at h
      | ok info =>
        simp only at h
        change (Act.andThen _ _ s1).1 = _ at h
        unfold Act.andThen at h
        cases h2 : myElectionCards env rest s1 with
        | mk r2 s2 =>
          rw [h2] at h
          cases r2 with
          | error e => simp at h
          | ok cards =>
            have hc := ih s1 cards (by rw [h2])
            have hv : (Except.ok _ : Except ErrorObj (List ElectionCard)) = .ok v := h
            injection hv with hv
            subst hv
            intro c hmem
            rcases List.mem_cons.mp hmem with hc0 | hc1
            · subst hc0
              rfl
            · exact hc c hc1

theorem allElectionCards_yields (env : Env) (addrs : List Address) :
    (allElectionCards env addrs).Yields fun cards =>
      ∀ c ∈ cards, c.statusClass = badgeClass c.status := by
  induction addrs with
  | nil =>
    intro s v h
    have : v = [] := by
      have h2 : (Except.ok [] : Except ErrorObj (List ElectionCard)) = .ok v := h
      injection h2 with h3
      exact h3.symm
    simp [this]
  | cons addr rest ih =>
    intro s v h
    unfold allElectionCards at h
    change (Act.andThen _ _ s).1 = _ at h
    unfold Act.andThen at h
    cases h1 : factoryRead (ReadCall.getElectionFullInfo addr)
        (fun t => env.getElectionFullInfo t addr) s with
    | mk r s1 =>
      rw [h1] at h
      cases r with
      | error e => simp at h
      | ok info =>
        simp only at h
        change (Act.andThen _ _ s1).1 = _ at h
        unfold Act.andThen at h
        cases h2 : allElectionCards env rest s1 with
        | mk r2 s2 =>
          rw [h2] at h
          cases r2 with
          | error e => simp at h
          | ok cards =>
            have hc := ih s1 cards (by rw [h2])
            have hv : (Except.ok _ : Except ErrorObj (List ElectionCard)) = .ok v := h
            injection hv with hv
            subst hv
            intro c hmem
            rcases List.mem_cons.mp hmem with hc0 | hc1
            · subst hc0
              rfl
            · exact hc c hc1

theorem steps_bind_yields {α β : Type} {R : State → State → Prop} (hR : Preorderly R)
    {m : Act α} {f : α → Act β} {Q : α → Prop}
    (hm : Act.Steps R m) (hq : m.Yields Q) (hf : ∀ a, Q a → Act.Steps R (f a)) :
    Act.Steps R (m >>= f) := by
  intro s
  show R s (Act.andThen m f s).2
  unfold Act.andThen
  have h1 := hm s
  have h2 := hq s
  cases hms : m s with
  | mk r s' =>
    rw [hms] at h1 h2
    cases r with
    | ok a => exact hR.trans _ _ _ h1 (hf a (h2 a rfl) s')
    | error e => exact h1

theorem myElectionCards_reads (env : Env) {p : Event → Prop} (h : ∀ c b, p (.read c b))
    (addrs : List Address) : Act.Steps (Appends p) (myElectionCards env addrs) := by
  induction addrs with
  | nil => exact steps_pure (appends_preorderly _) _
  | cons addr rest ih =>
    unfold myElectionCards
    refine steps_bind (appends_preorderly _) (factoryRead_appends _ _ (h _)) fun info => ?_
    exact steps_bind (appends_preorderly _) ih fun cards => steps_pure (appends_preorderly _) _

theorem allElectionCards_reads (env : Env) {p : Event → Prop} (h : ∀ c b, p (.read c b))
    (addrs : List Address) : Act.Steps (Appends p) (allElectionCards env addrs) := by
  induction addrs with
  | nil => exact steps_pure (appends_preorderly _) _
  | cons addr rest ih =>
    unfold allElectionCards
    refine steps_bind (appends_preorderly _) (factoryRead_appends _ _ (h _)) fun info => ?_
    exact steps_bind (appends_preorderly _) ih fun cards => steps_pure (appends_preorderly _) _

theorem loadMyElections_badges (env : Env) :
    Act.Steps (Appends Event.badgesAgree) (loadMyElections env) := by
  have hR := appends_preorderly Event.badgesAgree
  unfold loadMyElections
  refine steps_attempt hR ?_ fun e => emit_appends _ trivial
  refine steps_bind hR (steps_look hR) fun s => ?_
  refine steps_bind hR (factoryRead_appends _ _ fun _ => trivial) fun my => ?_
  split
  · exact write_appends _ trivial
  · exact write_appends _ trivial
  · exact steps_bind_yields hR (myElectionCards_reads env (fun _ _ => trivial) _)
      (myElectionCards_yields env _) fun cards hc => write_appends _ hc

theorem loadAllElections_badges (env : Env) :
    Act.Steps (Appends Event.badgesAgree) (loadAllElections env) := by
  have hR := appends_preorderly Event.badgesAgree
  unfold loadAllElections
  refine steps_attempt hR ?_ fun e => emit_appends _ trivial
  refine steps_bind hR (factoryRead_appends _ _ fun _ => trivial) fun all => ?_
  split
  · exact write_appends _ trivial
  · exact steps_bind_yields hR (allElectionCards_reads env (fun _ _ => trivial) _)
      (allElectionCards_yields env _) fun cards hc => write_appends _ hc

theorem includes_open_badge (status : String) (h : includes status "Open" = true) :
    badgeClass status = "badge-open" := by
  unfold badgeClass
  rw [if_pos h]

/-- C9: every election list written by `loadMyElections` and by `loadAllElections` gives
each card the badge class `badgeClass` of the status it shows, where `badgeClass` is
"badge-open" if the status contains "Open", otherwise "badge-closed" if it contains
"Ended" or "Finalized", otherwise "badge-pending"; on the five protocol statuses this is
open, open, closed, closed, pending; and "Open" wins over "Ended" and "Finalized". -/
theorem badge_class_of_status :
    (∀ (env : Env) (s : State), ∀ e ∈ (loadMyElections env).events s, e.badgesAgree) ∧
    (∀ (env : Env) (s : State), ∀ e ∈ (loadAllElections env).events s, e.badgesAgree) ∧
    badgeClass "RegistrationOpen" = "badge-open" ∧
    badgeClass "VotingOpen" = "badge-open" ∧
    badgeClass "Ended" = "badge-closed" ∧
    badgeClass "Finalized" = "badge-closed" ∧
    badgeClass "Pending" = "badge-pending" ∧
    (∀ status : String, includes status "Open" = true → badgeClass status = "badge-open") ∧
    (∀ status : String, includes status "Open" = false →
      (includes status "Ended" = true ∨ includes status "Finalized" = true) →
      badgeClass status = "badge-closed") ∧
    (∀ status : String, includes status "Open" = false → includes status "Ended" = false →
      includes status "Finalized" = false → badgeClass status = "badge-pending") := by
  refine ⟨fun env s => (events_of_appends (loadMyElections_badges env s)).2,
    fun env s => (events_of_appends (loadAllElections_badges env s)).2,
    by decide, by decide, by decide, by decide, by decide, includes_open_badge, ?_, ?_⟩
  · intro status h1 h2
    unfold badgeClass
    rcases h2 with h2 | h2 <;> simp [h1, h2]
  · intro status h1 h2 h3
    unfold badgeClass
    simp [h1, h2, h3]

theorem badge_class_of_status_witness :
    Event.dom (.innerHTML "electionsList" (.elections
        [{ onclick := "selectElection", addr := "0xE1", title := "Board",
           statusClass := "badge-open", status := "VotingOpen", short := "0xE1...",
           candidates := 2, votes := 0 }]))
      ∈ (loadMyElections calmEnv).events connectedState ∧
    (Event.dom (.innerHTML "electionsList" (.elections
        [{ onclick := "selectElection", addr := "0xE1", title := "Board",
           statusClass := "badge-open", status := "VotingOpen", short := "0xE1...",
           candidates := 2, votes := 0 }]))).badgesAgree ∧
    badgeClass "OpenEndedFinalized" = "badge-open" :=
  ⟨by decide,
   badge_class_of_status.1 calmEnv connectedState _ (by decide),
   badge_class_of_status.2.2.2.2.2.2.2.1 "OpenEndedFinalized" (by decide)⟩

/-! ## Failures of read calls -/

theorem loadCandidates_ok (env : Env) (s : State) : (loadCandidates env s).1 = .ok () := by
  unfold loadCandidates
  change (Act.andThen _ _ s).1 = _
  simp only [Act.andThen, Act.look]
  cases selected s.currentElection with
  | none => rfl
  | some election =>
    obtain ⟨a, h⟩ := attempt_ok _ (fun error => consoleError "" error) s
      (fun _ _ => ⟨(), rfl⟩)
    exact h

theorem loadVoterCandidates_ok (env : Env) (hasVoted : Bool) (s : State) :
    (loadVoterCandidates env hasVoted s).1 = .ok () := by
  unfold loadVoterCandidates
  change (Act.andThen _ _ s).1 = _
  simp only [Act.andThen, Act.look]
  cases selected s.voterElection with
  | none => rfl
  | some election =>
    obtain ⟨a, h⟩ := attempt_ok _ (fun error => consoleError "" error) s
      (fun _ _ => ⟨(), rfl⟩)
    exact h

theorem loadResults_ok (env : Env) (s : State) : (loadResults env s).1 = .ok () := by
  unfold loadResults
  change (Act.andThen _ _ s).1 = _
  simp only [Act.andThen, Act.look]
  cases selected s.currentElection with
  | none => rfl
  | some election =>
    obtain ⟨a, h⟩ := attempt_ok _ (fun error => consoleError "" error) s
      (fun _ _ => ⟨(), rfl⟩)
    exact h

theorem detectUserRole_ok (env : Env) (s : State) : (detectUserRole env s).1 = .ok () := by
  obtain ⟨a, h⟩ := attempt_ok _ (fun error => (do
      consoleError "Role detection error:" error
      write (.display "voterMode" "block")
      loadAllElections env : Act Unit)) s
    (fun e s' => ⟨(), loadAllElections_ok env _⟩)
  exact h

/-- C3: `selectElection` and `selectVoterElection` do not catch the failure of their
read calls: when `isInitialized` (for the first) or `getElectionDetails` (for the second)
fails, the function itself fails with that error right after the call, and nothing is
logged. -/
theorem select_read_failure_propagates :
    (selectElection unreadableEnv "0xE1" connectedState).1 = .error networkError ∧
    (selectElection unreadableEnv "0xE1").events connectedState =
      [.dom (.display "manageSection" "block"), .dom .selectCard,
       .read (.isInitialized "0xE1") false] ∧
    (selectVoterElection unreadableEnv "0xE1" connectedState).1 = .error networkError ∧
    (selectVoterElection unreadableEnv "0xE1").events connectedState =
      [.dom (.display "voterElectionSection" "block"),
       .read (.getElectionDetails "0xE1") false] := by
  decide

/-! ## Confirmation of state-changing calls -/

theorem loads_appends {α : Type} {p : Event → Prop} (h : ∀ e, e.isLoad = true → p e)
    {a : Act α} (ha : Act.Steps Loads a) : Act.Steps (Appends p) a :=
  fun s => appends_mono h (ha s).1

theorem factorySend_appends {p : Event → Prop} (env : Env) (call : MutCall)
    (h : ∀ b, p (.submit call b)) : Act.Steps (Appends p) (factorySend env call) := by
  unfold factorySend
  refine steps_bind (appends_preorderly p) (steps_look (appends_preorderly p)) fun s => ?_
  split
  · exact ask_appends _ _ h
  · exact steps_raise (appends_preorderly p) _

theorem initializeElection_no_second_wait (env : Env) :
    Act.Steps (Appends fun e => ∀ election title ok,
      e ≠ .wait (.updateElectionInfo election title) ok) (initializeElection env) := by
  have hR := appends_preorderly fun e => ∀ election title ok,
      e ≠ Event.wait (.updateElectionInfo election title) ok
  unfold initializeElection
  refine steps_bind hR (steps_look hR) fun s => ?_
  split
  · exact steps_pure hR _
  · dsimp only
    split
    · exact emit_appends _ (by simp)
    · refine steps_attempt hR ?_ fun e => ?_
      · refine steps_bind hR (write_appends _ (by simp)) fun _ => ?_
        refine steps_bind hR (ask_appends _ _ (by simp)) fun _ => ?_
        refine steps_bind hR (ask_appends _ _ (by simp)) fun _ => ?_
        refine steps_bind hR (factorySend_appends _ _ (by simp)) fun _ => ?_
        refine steps_bind hR (write_appends _ (by simp)) fun _ => ?_
        refine loads_appends ?_ (loadMyElections_loads env)
        intro e he
        cases e <;> simp [Event.isLoad] at he ⊢
      · exact steps_bind hR (steps_ofExcept hR _) fun _ => write_appends _ (by simp)

/-- C4: the `initializeElection` handler never awaits the confirmation of the
`updateElectionInfo` call it submits: no run of the handler contains a `tx.wait()` for
that call, and in the run where every request succeeds the success message and the
reload follow the submission of `updateElectionInfo` directly. -/
theorem initializeElection_skips_confirmation :
    (∀ (env : Env) (s : State) (election : Address) (title : String) (ok : Bool),
      Event.wait (.updateElectionInfo election title) ok ∉ (initializeElection env).events s) ∧
    (initializeElection calmEnv).events setupState =
      [.dom (.innerHTML "setupMessage" (.message "info" "Initializing...")),
       .submit (.initializeElection "0xE1" "Board" "Board election"
          (some 1700000000) (some 1700000000) (some 1700000000) (some 1700000000)) true,
       .wait (.initializeElection "0xE1" "Board" "Board election"
          (some 1700000000) (some 1700000000) (some 1700000000) (some 1700000000)) true,
       .submit (.updateElectionInfo "0xE1" "Board") true,
       .dom (.innerHTML "setupMessage" (.message "success" "Election initialized")),
       .read (.getElectionsByCommissioner
          (some "0x00000000000000000000000000000000000000A1")) true,
       .read (.getElectionFullInfo "0xE1") true,
       .dom (.innerHTML "electionsList" (.elections
        [{ onclick := "selectElection", addr := "0xE1", title := "Board",
           statusClass := "badge-open", status := "VotingOpen", short := "0xE1...",
           candidates := 2, votes := 0 }]))] := by
  constructor
  · intro env s election title ok hmem
    exact (events_of_appends (initializeElection_no_second_wait env s)).2 _ hmem
      election title ok rfl
  · have h : ((1700000000000 : ℤ) : ℚ) / ((1000 : ℤ) : ℚ) = 1700000000 := by norm_num
    have e : (initializeElection calmEnv).events setupState =
      [.dom (.innerHTML "setupMessage" (.message "info" "Initializing...")),
       .submit (.initializeElection "0xE1" "Board" "Board election"
          (some (((1700000000000 : ℤ) : ℚ) / ((1000 : ℤ) : ℚ))) (some (((1700000000000 : ℤ) : ℚ) / ((1000 : ℤ) : ℚ)))
          (some (((1700000000000 : ℤ) : ℚ) / ((1000 : ℤ) : ℚ))) (some (((1700000000000 : ℤ) : ℚ) / ((1000 : ℤ) : ℚ)))) true,
       .wait (.initializeElection "0xE1" "Board" "Board election"
          (some (((1700000000000 : ℤ) : ℚ) / ((1000 : ℤ) : ℚ))) (some (((1700000000000 : ℤ) : ℚ) / ((1000 : ℤ) : ℚ)))
          (some (((1700000000000 : ℤ) : ℚ) / ((1000 : ℤ) : ℚ))) (some (((1700000000000 : ℤ) : ℚ) / ((1000 : ℤ) : ℚ)))) true,
       .submit (.updateElectionInfo "0xE1" "Board") true,
       .dom (.innerHTML "setupMessage" (.message "success" "Election initialized")),
       .read (.getElectionsByCommissioner
          (some "0x00000000000000000000000000000000000000A1")) true,
       .read (.getElectionFullInfo "0xE1") true,
       .dom (.innerHTML "electionsList" (.elections
        [{ onclick := "selectElection", addr := "0xE1", title := "Board",
           statusClass := "badge-open", status := "VotingOpen", short := "0xE1...",
           candidates := 2, votes := 0 }]))] := by
      rfl
    rw [e, h]

/-! ## Wallet connection -/

theorem detectUserRole_views (env : Env) :
    Act.Steps (Appends fun e => e.isView = true) (detectUserRole env) := by
  have hR := appends_preorderly fun e : Event => e.isView = true
  have hl : ∀ e : Event, e.isLoad = true → e.isView = true := by
    intro e he
    cases e <;> simp [Event.isLoad, Event.isView] at he ⊢
  unfold detectUserRole
  refine steps_attempt hR ?_ fun e => ?_
  · refine steps_bind hR (steps_look hR) fun s => ?_
    refine steps_bind hR (factoryRead_appends _ _ fun _ => rfl) fun my => ?_
    split
    · refine steps_bind hR (change_appends _ fun _ => rfl) fun _ => ?_
      refine steps_bind hR (write_appends _ rfl) fun _ => ?_
      refine steps_bind hR (write_appends _ rfl) fun _ => ?_
      refine steps_bind hR (write_appends _ rfl) fun _ => ?_
      exact loads_appends hl (loadMyElections_loads env)
    · refine steps_bind hR (change_appends _ fun _ => rfl) fun _ => ?_
      refine steps_bind hR (write_appends _ rfl) fun _ => ?_
      refine steps_bind hR (write_appends _ rfl) fun _ => ?_
      refine steps_bind hR (write_appends _ rfl) fun _ => ?_
      exact loads_appends hl (loadAllElections_loads env)
  · refine steps_bind hR (emit_appends _ rfl) fun _ => ?_
    refine steps_bind hR (write_appends _ rfl) fun _ => ?_
    exact loads_appends hl (loadAllElections_loads env)

theorem connectWallet_eq (env : Env) :
    connectWallet env = Act.attempt (do
      if !env.hasEthereum then
        alert "Please install MetaMask"
      else do
        let accounts ← ask (.request "eth_requestAccounts" none) env.requestAccounts
        Act.change fun s => { s with userAddress := accounts.head? }
        let chainId ← getNetwork env
        if chainId ≠ 11155111 then do
          ask (.request "wallet_switchEthereumChain" (some "0xaa36a7"))
            (fun t => env.switchChain t "0xaa36a7")
          connectRest env
        else connectRest env)
    (fun error => do
      consoleError "Connection error:" error
      alert "Failed to connect wallet") := by
  rfl

theorem connectRest_gate (env : Env) :
    Act.Steps (Appends fun e => e.isAfterGate = true) (connectRest env) := by
  have hR := appends_preorderly fun e : Event => e.isAfterGate = true
  unfold connectRest
  refine steps_bind hR (ask_appends _ _ fun _ => rfl) fun _ => ?_
  refine steps_bind hR (change_appends _ fun _ => rfl) fun _ => ?_
  refine steps_bind hR (write_appends _ rfl) fun _ => ?_
  refine steps_bind hR (steps_look hR) fun s => ?_
  split
  · exact steps_raise hR _
  · refine steps_bind hR (write_appends _ rfl) fun _ => ?_
    refine steps_bind hR (write_appends _ rfl) fun _ => ?_
    refine steps_bind hR (write_appends _ rfl) fun _ => ?_
    intro s
    refine appends_mono ?_ (detectUserRole_views env s)
    intro e he
    cases e <;> simp [Event.isView, Event.isAfterGate] at he ⊢

theorem connectWallet_shape (env : Env) (s : State) :
    (connectWallet env).events s = [.alert "Please install MetaMask"] ∨
    (∃ e, (connectWallet env).events s =
      [.request "eth_requestAccounts" none false, .consoleError "Connection error:" e,
       .alert "Failed to connect wallet"]) ∨
    (∃ e, (connectWallet env).events s =
      [.request "eth_requestAccounts" none true, .network none,
       .consoleError "Connection error:" e, .alert "Failed to connect wallet"]) ∨
    (∃ n e, n ≠ 11155111 ∧ (connectWallet env).events s =
      [.request "eth_requestAccounts" none true, .network (some n),
       .request "wallet_switchEthereumChain" (some "0xaa36a7") false,
       .consoleError "Connection error:" e, .alert "Failed to connect wallet"]) ∨
    (∃ rest, (connectWallet env).events s =
      .request "eth_requestAccounts" none true :: .network (some 11155111) :: rest ∧
      ∀ e ∈ rest, e.isAfterGate = true) ∨
    (∃ n rest, n ≠ 11155111 ∧ (connectWallet env).events s =
      .request "eth_requestAccounts" none true :: .network (some n) ::
        .request "wallet_switchEthereumChain" (some "0xaa36a7") true :: rest ∧
      ∀ e ∈ rest, e.isAfterGate = true) := by
  rw [connectWallet_eq]
  unfold Act.events
  cases hE : env.hasEthereum
  · left
    simp [run_attempt, run_bind, run_alert, run_pure]
  · right
    cases hA : env.requestAccounts s.trace with
    | error e =>
      left
      refine ⟨e, ?_⟩
      simp [run_attempt, run_bind, run_alert, run_pure, run_ask, hA, run_consoleError]
    | ok accounts =>
      right
      simp only [run_attempt, run_bind, run_ask, hA, run_change, Bool.not_true,
        Bool.false_eq_true, if_false]
      cases hN : env.getNetwork (s.trace ++ [.request "eth_requestAccounts" none true]) with
      | error e =>
        left
        refine ⟨e, ?_⟩
        simp [run_getNetwork, hN, run_consoleError, run_alert, run_bind]
      | ok n =>
        right
        simp only [run_getNetwork, hN]
        by_cases hn : n = 11155111
        · right
          left
          subst hn
          simp only [ne_eq, not_true_eq_false, if_false]
          obtain ⟨l, hl, hp⟩ := connectRest_gate env
            { userAddress := accounts.head?, factoryContract := s.factoryContract,
              currentElection := s.currentElection, voterElection := s.voterElection,
              isCommissioner := s.isCommissioner, dom := s.dom,
              trace := s.trace ++ [.request "eth_requestAccounts" none true] ++
                [.network (some 11155111)] }
          cases hr : connectRest env
            { userAddress := accounts.head?, factoryContract := s.factoryContract,
              currentElection := s.currentElection, voterElection := s.voterElection,
              isCommissioner := s.isCommissioner, dom := s.dom,
              trace := s.trace ++ [.request "eth_requestAccounts" none true] ++
                [.network (some 11155111)] } with
          | mk r s3 =>
            rw [hr] at hl
            simp only at hl
            cases r with
            | ok a =>
              refine ⟨l, ?_, hp⟩
              simp [hl]
            | error e =>
              refine ⟨l ++ [.consoleError "Connection error:" e,
                .alert "Failed to connect wallet"], ?_, ?_⟩
              · simp [hl, run_consoleError, run_alert, run_bind]
              · intro e he
                rcases List.mem_append.mp he with h | h
                · exact hp e h
                · simp at h
                  rcases h with h | h <;> subst h <;> rfl
        · simp only [ne_eq, hn, not_false_eq_true, if_true, run_bind, run_ask]
          cases hS : env.switchChain (s.trace ++ [.request "eth_requestAccounts" none true] ++
              [.network (some n)]) "0xaa36a7" with
          | error e =>
            left
            refine ⟨n, e, hn, ?_⟩
            simp [run_consoleError, run_alert, run_bind]
          | ok u =>
            right
            right
            simp only []
            obtain ⟨l, hl, hp⟩ := connectRest_gate env
              { userAddress := accounts.head?, factoryContract := s.factoryContract,
                currentElection := s.currentElection, voterElection := s.voterElection,
                isCommissioner := s.isCommissioner, dom := s.dom,
                trace := s.trace ++ [.request "eth_requestAccounts" none true] ++
                  [.network (some n)] ++
                  [.request "wallet_switchEthereumChain" (some "0xaa36a7") true] }
            cases hr : connectRest env
              { userAddress := accounts.head?, factoryContract := s.factoryContract,
                currentElection := s.currentElection, voterElection := s.voterElection,
                isCommissioner := s.isCommissioner, dom := s.dom,
                trace := s.trace ++ [.request "eth_requestAccounts" none true] ++
                  [.network (some n)] ++
                  [.request "wallet_switchEthereumChain" (some "0xaa36a7") true] } with
            | mk r s3 =>
              rw [hr] at hl
              simp only at hl
              cases r with
              | ok a =>
                refine ⟨n, l, hn, ?_, hp⟩
                simp [hl]
              | error e =>
                refine ⟨n, l ++ [.consoleError "Connection error:" e,
                  .alert "Failed to connect wallet"], hn, ?_, ?_⟩
                · simp [hl, run_consoleError, run_alert, run_bind]
                · intro e he
                  rcases List.mem_append.mp he with h | h
                  · exact hp e h
                  · simp at h
                    rcases h with h | h <;> subst h <;> rfl

theorem not_gate_of_mem {rest : List Event} (h : ∀ e ∈ rest, e.isAfterGate = true) :
    (∀ m c ok, Event.request m c ok ∉ rest) ∧ (∀ n, Event.network n ∉ rest) := by
  constructor
  · intro m c ok hmem
    have := h _ hmem
    simp [Event.isAfterGate] at this
  · intro n hmem
    have := h _ hmem
    simp [Event.isAfterGate] at this

theorem connectWallet_ok (env : Env) (s : State) : (connectWallet env s).1 = .ok () := by
  obtain ⟨a, h⟩ := attempt_ok _ (fun error => (do
      consoleError "Connection error:" error
      alert "Failed to connect wallet" : Act Unit)) s
    (fun e s' => ⟨(), rfl⟩)
  exact h

/-- C6: in every run of `connectWallet`, a `wallet_switchEthereumChain` request is made
exactly when `getNetwork` reported a chain id other than 11155111; the only chain id ever
asked for is "0xaa36a7", which denotes 11155111; every contract call of the run is
preceded by the detection of chain 11155111 or by a switch request that resolved; and
when the switch request fails the run has no contract call and ends with the alert
"Failed to connect wallet". -/
theorem connectWallet_network_gate (env : Env) (s : State) :
    ((∃ ok, Event.request "wallet_switchEthereumChain" (some "0xaa36a7") ok
          ∈ (connectWallet env).events s) ↔
        ∃ n, n ≠ 11155111 ∧ Event.network (some n) ∈ (connectWallet env).events s) ∧
    (∀ method chainId ok, Event.request method (some chainId) ok
          ∈ (connectWallet env).events s →
        method = "wallet_switchEthereumChain" ∧ chainId = "0xaa36a7") ∧
    hexValue "0xaa36a7" = some 11155111 ∧
    (∀ before e after, (connectWallet env).events s = before ++ e :: after →
        e.isContractCall = true →
        Event.network (some 11155111) ∈ before ∨
          Event.request "wallet_switchEthereumChain" (some "0xaa36a7") true ∈ before) ∧
    (Event.request "wallet_switchEthereumChain" (some "0xaa36a7") false
          ∈ (connectWallet env).events s →
        (∀ e ∈ (connectWallet env).events s, e.isContractCall = false) ∧
          ((connectWallet env).events s).getLast? = some (.alert "Failed to connect wallet") ∧
          (connectWallet env s).1 = .ok ()) := by
  refine ⟨?_, ?_, by decide, ?_, ?_⟩
  · rcases connectWallet_shape env s with h | ⟨e, h⟩ | ⟨e, h⟩ | ⟨n, e, hn, h⟩ |
      ⟨rest, h, hr⟩ | ⟨n, rest, hn, h, hr⟩
    · rw [h]
      simp
    · rw [h]
      simp
    · rw [h]
      simp
    · rw [h]
      constructor
      · intro _
        exact ⟨n, hn, by simp⟩
      · intro _
        exact ⟨false, by simp⟩
    · rw [h]
      obtain ⟨h1, h2⟩ := not_gate_of_mem hr
      constructor
      · rintro ⟨ok, hmem⟩
        simp [h1] at hmem
      · rintro ⟨n, hn, hmem⟩
        simp [h2] at hmem
        exact absurd hmem hn
    · rw [h]
      constructor
      · intro _
        exact ⟨n, hn, by simp⟩
      · intro _
        exact ⟨true, by simp⟩
  · intro method chainId ok hmem
    rcases connectWallet_shape env s with h | ⟨e, h⟩ | ⟨e, h⟩ | ⟨n, e, hn, h⟩ |
      ⟨rest, h, hr⟩ | ⟨n, rest, hn, h, hr⟩
    · rw [h] at hmem
      simp at hmem
    · rw [h] at hmem
      simp at hmem
    · rw [h] at hmem
      simp at hmem
    · rw [h] at hmem
      simp at hmem
      exact ⟨hmem.1, hmem.2.1⟩
    · rw [h] at hmem
      obtain ⟨h1, h2⟩ := not_gate_of_mem hr
      simp [h1] at hmem
    · rw [h] at hmem
      obtain ⟨h1, h2⟩ := not_gate_of_mem hr
      simp [h1] at hmem
      exact ⟨hmem.1, hmem.2.1⟩
  · intro before e after hsplit hcall
    rcases connectWallet_shape env s with h | ⟨e1, h⟩ | ⟨e1, h⟩ | ⟨n, e1, hn, h⟩ |
      ⟨rest, h, hr⟩ | ⟨n, rest, hn, h, hr⟩
    · have hmem : e ∈ (connectWallet env).events s := by rw [hsplit]; simp
      rw [h] at hmem
      simp at hmem
      subst hmem
      simp [Event.isContractCall] at hcall
    · have hmem : e ∈ (connectWallet env).events s := by rw [hsplit]; simp
      rw [h] at hmem
      simp at hmem
      rcases hmem with hm | hm | hm <;> subst hm <;> simp [Event.isContractCall] at hcall
    · have hmem : e ∈ (connectWallet env).events s := by rw [hsplit]; simp
      rw [h] at hmem
      simp at hmem
      rcases hmem with hm | hm | hm | hm <;> subst hm <;>
        simp [Event.isContractCall] at hcall
    · have hmem : e ∈ (connectWallet env).events s := by rw [hsplit]; simp
      rw [h] at hmem
      simp at hmem
      rcases hmem with hm | hm | hm | hm | hm <;> subst hm <;>
        simp [Event.isContractCall] at hcall
    · left
      rw [h] at hsplit
      match before, hsplit with
      | [], hs =>
        simp at hs
        rw [← hs.1] at hcall
        simp [Event.isContractCall] at hcall
      | [x], hs =>
        simp at hs
        rw [← hs.2.1] at hcall
        simp [Event.isContractCall] at hcall
      | x :: y :: rest2, hs =>
        simp at hs
        simp [← hs.2.1]
    · right
      rw [h] at hsplit
      match before, hsplit with
      | [], hs =>
        simp at hs
        rw [← hs.1] at hcall
        simp [Event.isContractCall] at hcall
      | [x], hs =>
        simp at hs
        rw [← hs.2.1] at hcall
        simp [Event.isContractCall] at hcall
      | [x, y], hs =>
        simp at hs
        rw [← hs.2.2.1] at hcall
        simp [Event.isContractCall] at hcall
      | x :: y :: z :: rest2, hs =>
        simp at hs
        simp [← hs.2.2.1]
  · intro hmem
    refine ⟨?_, ?_, connectWallet_ok env s⟩
    · rcases connectWallet_shape env s with h | ⟨e, h⟩ | ⟨e, h⟩ | ⟨n, e, hn, h⟩ |
        ⟨rest, h, hr⟩ | ⟨n, rest, hn, h, hr⟩
      · rw [h] at hmem
        simp at hmem
      · rw [h] at hmem
        simp at hmem
      · rw [h] at hmem
        simp at hmem
      · rw [h]
        intro e he
        simp at he
        rcases he with hm | hm | hm | hm | hm <;> subst hm <;> rfl
      · rw [h] at hmem
        obtain ⟨h1, h2⟩ := not_gate_of_mem hr
        simp [h1] at hmem
      · rw [h] at hmem
        obtain ⟨h1, h2⟩ := not_gate_of_mem hr
        simp [h1] at hmem
    · rcases connectWallet_shape env s with h | ⟨e, h⟩ | ⟨e, h⟩ | ⟨n, e, hn, h⟩ |
        ⟨rest, h, hr⟩ | ⟨n, rest, hn, h, hr⟩
      · rw [h] at hmem
        simp at hmem
      · rw [h] at hmem
        simp at hmem
      · rw [h] at hmem
        simp at hmem
      · rw [h]
        simp
      · rw [h] at hmem
        obtain ⟨h1, h2⟩ := not_gate_of_mem hr
        simp [h1] at hmem
      · rw [h] at hmem
        obtain ⟨h1, h2⟩ := not_gate_of_mem hr
        simp [h1] at hmem

theorem connectWallet_network_gate_witness :
    Event.request "wallet_switchEthereumChain" (some "0xaa36a7") false
      ∈ (connectWallet wrongChainEnv).events initialState ∧
    (∀ e ∈ (connectWallet wrongChainEnv).events initialState, e.isContractCall = false) ∧
    ((connectWallet wrongChainEnv).events initialState).getLast?
      = some (.alert "Failed to connect wallet") ∧
    (connectWallet switchedEnv).events initialState =
      switchedGate ++
        .read (.getElectionsByCommissioner
          (some "0x00000000000000000000000000000000000000A1")) true :: switchedView ∧
    (Event.network (some 11155111) ∈ switchedGate ∨
     Event.request "wallet_switchEthereumChain" (some "0xaa36a7") true ∈ switchedGate) :=
  have h := (connectWallet_network_gate wrongChainEnv initialState).2.2.2.2 (by decide)
  have hev : (connectWallet switchedEnv).events initialState =
      switchedGate ++
        .read (.getElectionsByCommissioner
          (some "0x00000000000000000000000000000000000000A1")) true :: switchedView := by
    decide
  ⟨by decide, h.1, h.2.1, hev,
   (connectWallet_network_gate switchedEnv initialState).2.2.2.1 _ _ _ hev rfl⟩

/-! ## Role detection -/

theorem run_factoryRead {α : Type} (call : ReadCall)
    (answer : List Event → Except ErrorObj α) (s : State) :
    factoryRead call answer s =
      if s.factoryContract then ask (.read call) answer s
      else (.error (typeError "Cannot read properties of undefined"), s) := by
  unfold factoryRead
  rw [run_bind, run_look]
  simp only
  split <;> rfl

theorem modesShown_append (l₁ l₂ : List Event) :
    modesShown (l₁ ++ l₂) = modesShown l₁ ++ modesShown l₂ := by
  induction l₁ with
  | nil => rfl
  | cons e rest ih =>
    cases e with
    | dom w =>
      cases w with
      | display id value =>
        simp only [List.cons_append, modesShown]
        split <;> simp [ih]
      | _ => simpa [modesShown] using ih
    | _ => simpa [modesShown] using ih

theorem modesShown_loads {l : List Event} (h : ∀ e ∈ l, e.isLoad = true) :
    modesShown l = [] := by
  induction l with
  | nil => rfl
  | cons e rest ih =>
    have he := h e (List.mem_cons_self _ _)
    have hr := ih fun e he => h e (List.mem_cons_of_mem _ he)
    cases e with
    | dom w =>
      cases w with
      | display id value => simp [Event.isLoad] at he
      | _ => simpa [modesShown] using hr
    | _ => simpa [modesShown] using hr

theorem attempt_of_ok {α : Type} (body : Act α) (handler : ErrorObj → Act α) (s : State)
    (a : α) (h : (body s).1 = .ok a) : Act.attempt body handler s = body s := by
  rw [run_attempt]
  cases hb : body s with
  | mk r s' =>
    rw [hb] at h
    cases r with
    | ok v => rfl
    | error e => simp at h

theorem detectUserRole_commissioner (env : Env) (s : State) (a : Address) (l : List Address)
    (h : roleAnswer env s = .ok (some (a :: l))) :
    detectUserRole env s = loadMyElections env (commissionerView s) := by
  unfold roleAnswer at h
  cases hf : s.factoryContract with
  | false => simp [hf] at h
  | true =>
    simp only [hf, if_true] at h
    unfold detectUserRole
    have hb : ∀ body : Act Unit, body s = loadMyElections env (commissionerView s) →
        ∀ handler, Act.attempt body handler s = loadMyElections env (commissionerView s) := by
      intro body hbody handler
      rw [attempt_of_ok body handler s () (by rw [hbody]; exact loadMyElections_ok env _), hbody]
    apply hb
    simp only [run_bind, run_look, run_factoryRead, hf, if_true, run_ask, h, run_change,
      run_write]
    congr 1
    simp [commissionerView, hf]

theorem detectUserRole_voter (env : Env) (s : State) (r : Option (List Address))
    (h : roleAnswer env s = .ok r) (hr : r = none ∨ r = some []) :
    detectUserRole env s = loadAllElections env (voterView s) := by
  unfold roleAnswer at h
  cases hf : s.factoryContract with
  | false => simp [hf] at h
  | true =>
    simp only [hf, if_true] at h
    unfold detectUserRole
    have hb : ∀ body : Act Unit, body s = loadAllElections env (voterView s) →
        ∀ handler, Act.attempt body handler s = loadAllElections env (voterView s) := by
      intro body hbody handler
      rw [attempt_of_ok body handler s () (by rw [hbody]; exact loadAllElections_ok env _), hbody]
    apply hb
    rcases hr with hr | hr <;> subst hr
    · simp only [run_bind, run_look, run_factoryRead, hf, if_true, run_ask, h, run_change,
        run_write]
      congr 1
      simp [voterView, hf]
    · simp only [run_bind, run_look, run_factoryRead, hf, if_true, run_ask, h, run_change,
        run_write]
      congr 1
      simp [voterView, hf]

theorem detectUserRole_fallback (env : Env) (s : State) (error : ErrorObj)
    (h : roleAnswer env s = .error error) :
    detectUserRole env s = loadAllElections env (fallbackView s error) := by
  unfold roleAnswer at h
  unfold detectUserRole
  cases hf : s.factoryContract with
  | false =>
    simp only [hf, Bool.false_eq_true, if_false] at h
    injection h with h
    subst h
    simp only [run_attempt, run_bind, run_look, run_factoryRead, hf, Bool.false_eq_true,
      if_false, run_consoleError, run_write]
    congr 1
    simp [fallbackView, hf]
  | true =>
    simp only [hf, if_true] at h
    simp only [run_attempt, run_bind, run_look, run_factoryRead, hf, if_true, run_ask, h,
      run_consoleError, run_write]
    congr 1
    simp [fallbackView, hf]

theorem events_of_trace {α : Type} (a : Act α) (s : State) (l : List Event)
    (h : (a s).2.trace = s.trace ++ l) : a.events s = l := by
  unfold Act.events
  rw [h]
  exact List.drop_left _ _

/-- C7 (amended): `detectUserRole` classifies the connected account. A non-empty answer of
`getElectionsByCommissioner(userAddress)` sets `isCommissioner`, labels the role
"Commissioner", shows commissioner mode and runs `loadMyElections`; an empty or absent
answer clears `isCommissioner`, labels the role "Voter", shows voter mode and runs
`loadAllElections`; a failed call shows voter mode and runs `loadAllElections`, leaving
`isCommissioner` as it was. In every case the call makes exactly one of the two modes
visible, and `isCommissioner` is true afterwards only if the answer was a non-empty list
or the call failed while `isCommissioner` was already true. -/
theorem detectUserRole_classifies (env : Env) (s : State) :
    (∀ a l, roleAnswer env s = .ok (some (a :: l)) →
      detectUserRole env s = loadMyElections env (commissionerView s) ∧
      (detectUserRole env s).2.isCommissioner = true ∧
      (detectUserRole env s).2.dom.textContent "roleIndicator" = "Commissioner" ∧
      (detectUserRole env s).2.dom.display "commissionerMode" = "block" ∧
      modesShown ((detectUserRole env).events s) = ["commissionerMode"]) ∧
    (∀ r, roleAnswer env s = .ok r → r = none ∨ r = some [] →
      detectUserRole env s = loadAllElections env (voterView s) ∧
      (detectUserRole env s).2.isCommissioner = false ∧
      (detectUserRole env s).2.dom.textContent "roleIndicator" = "Voter" ∧
      (detectUserRole env s).2.dom.display "voterMode" = "block" ∧
      modesShown ((detectUserRole env).events s) = ["voterMode"]) ∧
    (∀ error, roleAnswer env s = .error error →
      detectUserRole env s = loadAllElections env (fallbackView s error) ∧
      (detectUserRole env s).2.isCommissioner = s.isCommissioner ∧
      (detectUserRole env s).2.dom.display "voterMode" = "block" ∧
      modesShown ((detectUserRole env).events s) = ["voterMode"]) ∧
    ((detectUserRole env s).2.isCommissioner = true →
      (∃ a l, roleAnswer env s = .ok (some (a :: l))) ∨
      (s.isCommissioner = true ∧ ∃ error, roleAnswer env s = .error error)) := by
  have h1 : ∀ a l, roleAnswer env s = .ok (some (a :: l)) →
      detectUserRole env s = loadMyElections env (commissionerView s) ∧
      (detectUserRole env s).2.isCommissioner = true ∧
      (detectUserRole env s).2.dom.textContent "roleIndicator" = "Commissioner" ∧
      (detectUserRole env s).2.dom.display "commissionerMode" = "block" ∧
      modesShown ((detectUserRole env).events s) = ["commissionerMode"] := by
    intro a l h
    have heq := detectUserRole_commissioner env s a l h
    obtain ⟨⟨ev, hev, hp⟩, hic, _, _, _, _, hdisp, htext, _, _⟩ :=
      loadMyElections_loads env (commissionerView s)
    refine ⟨heq, ?_, ?_, ?_, ?_⟩
    · rw [heq, hic]
      rfl
    · rw [heq, htext]
      simp [commissionerView, Dom.apply]
    · rw [heq, hdisp]
      simp [commissionerView, Dom.apply]
    · have ht : (detectUserRole env s).2.trace = s.trace ++
          ([.read (.getElectionsByCommissioner s.userAddress) true,
            .dom (.textContent "roleIndicator" "Commissioner"),
            .dom (.display "roleIndicator" "inline-block"),
            .dom (.display "commissionerMode" "block")] ++ ev) := by
        rw [heq, hev]
        simp [commissionerView]
      rw [events_of_trace _ _ _ ht, modesShown_append, modesShown_loads hp]
      simp [modesShown]
  have h2 : ∀ r, roleAnswer env s = .ok r → r = none ∨ r = some [] →
      detectUserRole env s = loadAllElections env (voterView s) ∧
      (detectUserRole env s).2.isCommissioner = false ∧
      (detectUserRole env s).2.dom.textContent "roleIndicator" = "Voter" ∧
      (detectUserRole env s).2.dom.display "voterMode" = "block" ∧
      modesShown ((detectUserRole env).events s) = ["voterMode"] := by
    intro r h hr
    have heq := detectUserRole_voter env s r h hr
    obtain ⟨⟨ev, hev, hp⟩, hic, _, _, _, _, hdisp, htext, _, _⟩ :=
      loadAllElections_loads env (voterView s)
    refine ⟨heq, ?_, ?_, ?_, ?_⟩
    · rw [heq, hic]
      rfl
    · rw [heq, htext]
      simp [voterView, Dom.apply]
    · rw [heq, hdisp]
      simp [voterView, Dom.apply]
    · have ht : (detectUserRole env s).2.trace = s.trace ++
          ([.read (.getElectionsByCommissioner s.userAddress) true,
            .dom (.textContent "roleIndicator" "Voter"),
            .dom (.display "roleIndicator" "inline-block"),
            .dom (.display "voterMode" "block")] ++ ev) := by
        rw [heq, hev]
        simp [voterView]
      rw [events_of_trace _ _ _ ht, modesShown_append, modesShown_loads hp]
      simp [modesShown]
  have h3 : ∀ error, roleAnswer env s = .error error →
      detectUserRole env s = loadAllElections env (fallbackView s error) ∧
      (detectUserRole env s).2.isCommissioner = s.isCommissioner ∧
      (detectUserRole env s).2.dom.display "voterMode" = "block" ∧
      modesShown ((detectUserRole env).events s) = ["voterMode"] := by
    intro error h
    have heq := detectUserRole_fallback env s error h
    obtain ⟨⟨ev, hev, hp⟩, hic, _, _, _, _, hdisp, htext, _, _⟩ :=
      loadAllElections_loads env (fallbackView s error)
    refine ⟨heq, ?_, ?_, ?_⟩
    · rw [heq, hic]
      rfl
    · rw [heq, hdisp]
      simp [fallbackView, Dom.apply]
    · have ht : (detectUserRole env s).2.trace = s.trace ++
          ((if s.factoryContract then
              [.read (.getElectionsByCommissioner s.userAddress) false] else []) ++
            [.consoleError "Role detection error:" error,
             .dom (.display "voterMode" "block")] ++ ev) := by
        rw [heq, hev]
        simp [fallbackView]
      rw [events_of_trace _ _ _ ht, modesShown_append, modesShown_append, modesShown_loads hp]
      cases s.factoryContract <;> simp [modesShown]
  refine ⟨h1, h2, h3, ?_⟩
  intro hc
  cases hr : roleAnswer env s with
  | error error =>
    right
    rw [(h3 error hr).2.1] at hc
    exact ⟨hc, error, rfl⟩
  | ok r =>
    match r, hr with
    | none, hr =>
      rw [(h2 none hr (Or.inl rfl)).2.1] at hc
      simp at hc
    | some [], hr =>
      rw [(h2 (some []) hr (Or.inr rfl)).2.1] at hc
      simp at hc
    | some (a :: l), hr => exact Or.inl ⟨a, l, rfl⟩

theorem detectUserRole_classifies_witness :
    roleAnswer calmEnv connectedState = .ok (some ["0xE1"]) ∧
    (detectUserRole calmEnv connectedState).2.isCommissioner = true ∧
    modesShown ((detectUserRole calmEnv).events connectedState) = ["commissionerMode"] ∧
    roleAnswer roleErrorEnv connectedState = .error networkError ∧
    (detectUserRole roleErrorEnv connectedState).2.isCommissioner = false ∧
    modesShown ((detectUserRole roleErrorEnv).events connectedState) = ["voterMode"] :=
  ⟨by decide,
   ((detectUserRole_classifies calmEnv connectedState).1 "0xE1" [] (by decide)).2.1,
   ((detectUserRole_classifies calmEnv connectedState).1 "0xE1" [] (by decide)).2.2.2.2,
   by decide,
   ((detectUserRole_classifies roleErrorEnv connectedState).2.2.1 networkError
      (by decide)).2.1,
   ((detectUserRole_classifies roleErrorEnv connectedState).2.2.1 networkError
      (by decide)).2.2.2⟩

/-- C7, as stated, fails: when `isCommissioner` is already true and the call
`getElectionsByCommissioner` fails, no list is returned, voter mode is shown, and
`isCommissioner` is still true afterwards. -/
theorem detectUserRole_keeps_stale_role :
    roleAnswer roleErrorEnv commissionerState = .error networkError ∧
    (detectUserRole roleErrorEnv commissionerState).2.isCommissioner = true ∧
    (detectUserRole roleErrorEnv commissionerState).2.dom.display "voterMode" = "block" ∧
    (detectUserRole roleErrorEnv commissionerState).2.dom.display "commissionerMode"
      = "block" := by
  decide

/-! ## The setup handlers -/

theorem attempt_bind_ok {α β : Type} (m : Act α) (f : α → Act β) (h : ErrorObj → Act β)
    (s s1 : State) (a : α) (hm : m s = (.ok a, s1)) :
    Act.attempt (m >>= f) h s = Act.attempt (f a) h s1 := by
  rw [run_attempt, run_bind, hm, run_attempt]

theorem attempt_bind_error {α β : Type} (m : Act α) (f : α → Act β) (h : ErrorObj → Act β)
    (s s1 : State) (e : ErrorObj) (hm : m s = (.error e, s1)) :
    Act.attempt (m >>= f) h s = h e s1 := by
  rw [run_attempt, run_bind, hm]

theorem notice_appends {p : Event → Prop} (id : String)
    (h : ∀ msg, p (.dom (.innerHTML id (.message "error" msg)))) (error : ErrorObj) :
    Act.Steps (Appends p) (do
      let msg ← Act.ofExcept (parseError error)
      showMessage id msg "error" : Act Unit) :=
  steps_bind (appends_preorderly p) (steps_ofExcept (appends_preorderly p) _)
    fun msg => write_appends _ (h msg)

theorem submit_shape (env : Env) (call : MutCall) (k : Act Unit) (h : ErrorObj → Act Unit)
    (p : Event → Prop) (s s1 : State) (pre : List Event) (hs1 : s1.trace = s.trace ++ pre)
    (hk : Act.Steps (Appends p) (Act.attempt k h)) (hh : ∀ e, Act.Steps (Appends p) (h e)) :
    ∃ ok rest, List.drop s.trace.length
        (Act.attempt (electionSend env call >>= fun _ => k) h s1).2.trace
          = pre ++ Event.submit call ok :: rest ∧ ∀ e ∈ rest, p e := by
  cases hS : env.send s1.trace call with
  | error e =>
    have hm : electionSend env call s1
        = (.error e, { s1 with trace := s1.trace ++ [.submit call false] }) := by
      unfold electionSend
      rw [run_ask, hS]
    rw [attempt_bind_error _ _ _ _ _ _ hm]
    obtain ⟨l, hl, hp⟩ := hh e { s1 with trace := s1.trace ++ [.submit call false] }
    refine ⟨false, l, ?_, hp⟩
    rw [hl]
    simp [hs1]
  | ok u =>
    have hm : electionSend env call s1
        = (.ok u, { s1 with trace := s1.trace ++ [.submit call true] }) := by
      unfold electionSend
      rw [run_ask, hS]
    rw [attempt_bind_ok _ _ _ _ _ _ hm]
    obtain ⟨l, hl, hp⟩ := hk { s1 with trace := s1.trace ++ [.submit call true] }
    refine ⟨true, l, ?_, hp⟩
    rw [hl]
    simp [hs1]

theorem initializeElection_shape (env : Env) (s : State) (election : Address)
    (hsel : selected s.currentElection = some election)
    (hfill : ¬ (s.dom.value "setupTitle" = "" ∨ s.dom.value "setupDescription" = "")) :
    ∃ ok rest, (initializeElection env).events s =
      .dom (.innerHTML "setupMessage" (.message "info" "Initializing...")) ::
      .submit (.initializeElection election (s.dom.value "setupTitle")
        (s.dom.value "setupDescription")
        (seconds env (s.dom.value "setupRegStart")) (seconds env (s.dom.value "setupRegEnd"))
        (seconds env (s.dom.value "setupVoteStart"))
        (seconds env (s.dom.value "setupVoteEnd"))) ok :: rest ∧
      ∀ e ∈ rest, ∀ c b, e = Event.submit c b →
        c = .updateElectionInfo election (s.dom.value "setupTitle") := by
  have hfill2 : (decide (s.dom.value "setupTitle" = "") ||
      decide (s.dom.value "setupDescription" = "")) = false := by
    simpa using hfill
  have hR := appends_preorderly fun e : Event => ∀ c b, e = Event.submit c b →
      c = .updateElectionInfo election (s.dom.value "setupTitle")
  unfold Act.events initializeElection
  rw [run_bind, run_look]
  simp only [hsel, hfill2, Bool.false_eq_true, if_false]
  rw [attempt_bind_ok _ _ _ s _ () (run_showMessage _ _ _ s)]
  refine submit_shape env _ _ _ _ s _
    [.dom (.innerHTML "setupMessage" (.message "info" "Initializing..."))] rfl ?_ ?_
  · refine steps_attempt hR ?_ fun e => notice_appends _ (by simp) e
    refine steps_bind hR (ask_appends _ _ (by simp)) fun _ => ?_
    refine steps_bind hR (factorySend_appends _ _ (by simp)) fun _ => ?_
    refine steps_bind hR (write_appends _ (by simp)) fun _ => ?_
    refine loads_appends ?_ (loadMyElections_loads env)
    intro e he
    cases e <;> simp [Event.isLoad] at he ⊢
  · exact fun e => notice_appends _ (by simp) e

theorem updateTimings_shape (env : Env) (s : State) (election : Address)
    (hsel : selected s.currentElection = some election) :
    ∃ ok rest, (updateTimings env).events s =
      .dom (.innerHTML "setupMessage" (.message "info" "Updating...")) ::
      .submit (.updateTimings election
        (seconds env (s.dom.value "setupRegStart")) (seconds env (s.dom.value "setupRegEnd"))
        (seconds env (s.dom.value "setupVoteStart"))
        (seconds env (s.dom.value "setupVoteEnd"))) ok :: rest ∧
      ∀ e ∈ rest, ∀ c b, e ≠ Event.submit c b := by
  have hR := appends_preorderly fun e : Event => ∀ c b, e ≠ Event.submit c b
  unfold Act.events updateTimings
  rw [run_bind, run_look]
  simp only [hsel]
  rw [attempt_bind_ok _ _ _ s _ () (run_showMessage _ _ _ s)]
  refine submit_shape env _ _ _ _ s _
    [.dom (.innerHTML "setupMessage" (.message "info" "Updating..."))] rfl ?_ ?_
  · refine steps_attempt hR ?_ fun e => notice_appends _ (by simp) e
    refine steps_bind hR (ask_appends _ _ (by simp)) fun _ => ?_
    exact write_appends _ (by simp)
  · exact fun e => notice_appends _ (by simp) e

theorem initializeElection_unfilled (env : Env) (s : State) (election : Address)
    (hsel : selected s.currentElection = some election)
    (hfill : s.dom.value "setupTitle" = "" ∨ s.dom.value "setupDescription" = "") :
    (initializeElection env).events s = [.alert "Fill all fields"] := by
  have hfill2 : (decide (s.dom.value "setupTitle" = "") ||
      decide (s.dom.value "setupDescription" = "")) = true := by
    simpa using hfill
  unfold Act.events initializeElection
  rw [run_bind, run_look]
  simp only [hsel, hfill2, if_true, run_alert]
  simp

/-- C8: with an election selected, the `initializeElection` handler submits the contract
call exactly when title and description are both non-empty, and `updateTimings` always
submits its call, whatever the four timing values and their order are; the arguments
are (title, description, regStart, regEnd, voteStart, voteEnd), resp. (regStart, regEnd,
voteStart, voteEnd), each timing being the millisecond timestamp of its form field
divided by 1000 by the engine (`NaN` for an invalid date); the only other call the first
handler submits is `updateElectionInfo`, and the second handler submits no other call. -/
theorem timings_passed_unchecked (env : Env) (s : State) (election : Address)
    (hsel : selected s.currentElection = some election) :
    ((∃ ok, Event.submit (.initializeElection election (s.dom.value "setupTitle")
          (s.dom.value "setupDescription")
          ((env.getTime (s.dom.value "setupRegStart")).map fun ms => env.divide ms 1000)
          ((env.getTime (s.dom.value "setupRegEnd")).map fun ms => env.divide ms 1000)
          ((env.getTime (s.dom.value "setupVoteStart")).map fun ms => env.divide ms 1000)
          ((env.getTime (s.dom.value "setupVoteEnd")).map fun ms => env.divide ms 1000)) ok
        ∈ (initializeElection env).events s) ↔
      (s.dom.value "setupTitle" ≠ "" ∧ s.dom.value "setupDescription" ≠ "")) ∧
    (∀ c ok, Event.submit c ok ∈ (initializeElection env).events s →
      c = .initializeElection election (s.dom.value "setupTitle")
          (s.dom.value "setupDescription")
          ((env.getTime (s.dom.value "setupRegStart")).map fun ms => env.divide ms 1000)
          ((env.getTime (s.dom.value "setupRegEnd")).map fun ms => env.divide ms 1000)
          ((env.getTime (s.dom.value "setupVoteStart")).map fun ms => env.divide ms 1000)
          ((env.getTime (s.dom.value "setupVoteEnd")).map fun ms => env.divide ms 1000) ∨
      c = .updateElectionInfo election (s.dom.value "setupTitle")) ∧
    (∃ ok, Event.submit (.updateTimings election
          ((env.getTime (s.dom.value "setupRegStart")).map fun ms => env.divide ms 1000)
          ((env.getTime (s.dom.value "setupRegEnd")).map fun ms => env.divide ms 1000)
          ((env.getTime (s.dom.value "setupVoteStart")).map fun ms => env.divide ms 1000)
          ((env.getTime (s.dom.value "setupVoteEnd")).map fun ms => env.divide ms 1000)) ok
        ∈ (updateTimings env).events s) ∧
    (∀ c ok, Event.submit c ok ∈ (updateTimings env).events s →
      c = .updateTimings election
          ((env.getTime (s.dom.value "setupRegStart")).map fun ms => env.divide ms 1000)
          ((env.getTime (s.dom.value "setupRegEnd")).map fun ms => env.divide ms 1000)
          ((env.getTime (s.dom.value "setupVoteStart")).map fun ms => env.divide ms 1000)
          ((env.getTime (s.dom.value "setupVoteEnd")).map fun ms => env.divide ms 1000)) := by
  obtain ⟨ok2, rest2, h2, hp2⟩ := updateTimings_shape env s election hsel
  unfold seconds at h2
  refine ⟨?_, ?_, ⟨ok2, by rw [h2]; simp⟩, ?_⟩
  · by_cases hfill : s.dom.value "setupTitle" = "" ∨ s.dom.value "setupDescription" = ""
    · rw [initializeElection_unfilled env s election hsel hfill]
      constructor
      · rintro ⟨ok, hmem⟩
        simp at hmem
      · rintro ⟨ht, hd⟩
        rcases hfill with h | h
        · exact absurd h ht
        · exact absurd h hd
    · obtain ⟨ok1, rest1, h1, hp1⟩ := initializeElection_shape env s election hsel hfill
      unfold seconds at h1
      constructor
      · intro _
        exact ⟨fun h => hfill (Or.inl h), fun h => hfill (Or.inr h)⟩
      · intro _
        exact ⟨ok1, by rw [h1]; simp⟩
  · intro c ok hmem
    by_cases hfill : s.dom.value "setupTitle" = "" ∨ s.dom.value "setupDescription" = ""
    · rw [initializeElection_unfilled env s election hsel hfill] at hmem
      simp at hmem
    · obtain ⟨ok1, rest1, h1, hp1⟩ := initializeElection_shape env s election hsel hfill
      unfold seconds at h1
      rw [h1] at hmem
      simp only [List.mem_cons] at hmem
      rcases hmem with hm | hm | hm
      · simp at hm
      · injection hm with hc _
        exact Or.inl hc
      · exact Or.inr (hp1 _ hm c ok rfl)
  · intro c ok hmem
    rw [h2] at hmem
    simp only [List.mem_cons] at hmem
    rcases hmem with hm | hm | hm
    · simp at hm
    · injection hm with hc _
    · exact absurd rfl (hp2 _ hm c ok)

theorem timings_passed_unchecked_witness :
    selected setupState.currentElection = some "0xE1" ∧
    (∃ ok, Event.submit (.initializeElection "0xE1" (setupState.dom.value "setupTitle")
          (setupState.dom.value "setupDescription")
          ((calmEnv.getTime (setupState.dom.value "setupRegStart")).map
            fun ms => calmEnv.divide ms 1000)
          ((calmEnv.getTime (setupState.dom.value "setupRegEnd")).map
            fun ms => calmEnv.divide ms 1000)
          ((calmEnv.getTime (setupState.dom.value "setupVoteStart")).map
            fun ms => calmEnv.divide ms 1000)
          ((calmEnv.getTime (setupState.dom.value "setupVoteEnd")).map
            fun ms => calmEnv.divide ms 1000)) ok
        ∈ (initializeElection calmEnv).events setupState) ∧
    (∃ ok, Event.submit (.updateTimings "0xE1"
          ((millisEnv.getTime (setupState.dom.value "setupRegStart")).map
            fun ms => millisEnv.divide ms 1000)
          ((millisEnv.getTime (setupState.dom.value "setupRegEnd")).map
            fun ms => millisEnv.divide ms 1000)
          ((millisEnv.getTime (setupState.dom.value "setupVoteStart")).map
            fun ms => millisEnv.divide ms 1000)
          ((millisEnv.getTime (setupState.dom.value "setupVoteEnd")).map
            fun ms => millisEnv.divide ms 1000)) ok
        ∈ (updateTimings millisEnv).events setupState) ∧
    (millisEnv.getTime (setupState.dom.value "setupRegStart")).map
        (fun ms => millisEnv.divide ms 1000) = some (7130316800515899 / 4194304) :=
  ⟨by decide,
   ((timings_passed_unchecked calmEnv setupState "0xE1" (by decide)).1).mpr
     ⟨by decide, by decide⟩,
   (timings_passed_unchecked millisEnv setupState "0xE1" (by decide)).2.2.1,
   rfl⟩

/-! ## The voter view -/

theorem run_loadVoterCandidates (env : Env) (hasVoted : Bool) (s : State) :
    loadVoterCandidates env hasVoted s =
      match selected s.voterElection with
      | none => (.ok (), s)
      | some election =>
        match env.getAllCandidates s.trace election with
        | .ok cs =>
          (.ok (), { s with
            dom := s.dom.apply (.innerHTML "voterCandidatesList"
              (.voteCards (voteCardsOf hasVoted cs)))
            trace := s.trace ++ [.read (.getAllCandidates election) true,
              .dom (.innerHTML "voterCandidatesList" (.voteCards (voteCardsOf hasVoted cs)))] })
        | .error e =>
          (.ok (), { s with
            trace := s.trace ++ [.read (.getAllCandidates election) false,
              .consoleError "" e] }) := by
  unfold loadVoterCandidates
  rw [run_bind, run_look]
  simp only
  cases selected s.voterElection with
  | none => rfl
  | some election =>
    simp only [run_attempt, run_bind, run_ask]
    cases env.getAllCandidates s.trace election with
    | ok cs => simp [run_write, voteCardsOf]
    | error e => simp [run_consoleError]

theorem run_selectVoterElection (env : Env) (addr : Address) (s : State)
    (details : ElectionDetails) (isReg hasVoted : Bool) (votedId : Nat)
    (hd : env.getElectionDetails
      (s.trace ++ [.dom (.display "voterElectionSection" "block")]) addr = .ok details)
    (hv : env.getVoter
      (s.trace ++ [.dom (.display "voterElectionSection" "block"),
        .read (.getElectionDetails addr) true]) addr s.userAddress
        = .ok (isReg, hasVoted, votedId)) :
    selectVoterElection env addr s =
      if isReg then loadVoterCandidates env hasVoted (voterPage s addr details isReg hasVoted)
      else (.ok (), voterPage s addr details isReg hasVoted) := by
  unfold selectVoterElection
  simp only [run_bind, run_change, run_write, run_ask, run_look, hd, hv, List.append_assoc,
    List.singleton_append, List.cons_append, List.nil_append]
  cases isReg <;> cases hasVoted <;>
    simp [run_bind, run_write, voterPage, voterPageWrites, statusMark, statusLine]

theorem drop_trace (t l : List Event) : List.drop t.length (t ++ l) = l :=
  List.drop_left _ _

/-- C10 (amended): in the voter view that `selectVoterElection` builds from the answer
(registered, hasVoted) of `getVoter`: the register button is shown exactly when the
account is not registered and the candidates section exactly when it is; the status
line reads "Not registered", "Already voted" or "Registered - Ready to vote" after its
mark; every vote button the call renders goes to the candidate list of a registered
account and is disabled exactly when hasVoted is true; when the read of the candidates
succeeds the list holds those buttons, otherwise it keeps what it held before. So an
unregistered account is offered no vote button, and an account that has voted is
offered no enabled one whenever the candidates were read. -/
theorem voter_view_of_registration (env : Env) (addr : Address) (s : State)
    (details : ElectionDetails) (isReg hasVoted : Bool) (votedId : Nat)
    (hd : env.getElectionDetails
      (s.trace ++ [.dom (.display "voterElectionSection" "block")]) addr = .ok details)
    (hv : env.getVoter
      (s.trace ++ [.dom (.display "voterElectionSection" "block"),
        .read (.getElectionDetails addr) true]) addr s.userAddress
        = .ok (isReg, hasVoted, votedId)) :
    (selectVoterElection env addr s).1 = .ok () ∧
    (selectVoterElection env addr s).2.dom.display "voterRegisterBtn"
      = (if isReg then "none" else "inline-block") ∧
    (selectVoterElection env addr s).2.dom.display "voterCandidatesSection"
      = (if isReg then "block" else "none") ∧
    (selectVoterElection env addr s).2.dom.innerHTML "voterElectionInfo"
      = .voterInfo details.description
          (if includes details.status "Open" then "badge-open" else "badge-closed")
          details.status (statusMark isReg ++ statusLine isReg hasVoted) ∧
    (∀ id cards, Event.dom (.innerHTML id (.voteCards cards))
        ∈ (selectVoterElection env addr).events s →
      isReg = true ∧ id = "voterCandidatesList" ∧ ∀ c ∈ cards, c.disabled = hasVoted) ∧
    ((∃ election, Event.read (.getAllCandidates election) true
        ∈ (selectVoterElection env addr).events s) →
      ∃ cards, (selectVoterElection env addr s).2.dom.innerHTML "voterCandidatesList"
          = .voteCards cards ∧ ∀ c ∈ cards, c.disabled = hasVoted) ∧
    ((∀ election, Event.read (.getAllCandidates election) true
        ∉ (selectVoterElection env addr).events s) →
      (selectVoterElection env addr s).2.dom.innerHTML "voterCandidatesList"
        = s.dom.innerHTML "voterCandidatesList") ∧
    (isReg = false → offersVote (selectVoterElection env addr s).2.dom = false) ∧
    (hasVoted = true →
      (∃ election, Event.read (.getAllCandidates election) true
        ∈ (selectVoterElection env addr).events s) →
      offersEnabledVote (selectVoterElection env addr s).2.dom = false) := by
  have hrun := run_selectVoterElection env addr s details isReg hasVoted votedId hd hv
  unfold Act.events
  rw [hrun]
  cases isReg with
  | false =>
    simp [voterPage, voterPageWrites, Dom.apply, offersVote, drop_trace]
  | true =>
    simp only [if_true, run_loadVoterCandidates]
    have hsel : selected (voterPage s addr details true hasVoted).voterElection
        = if addr = "" then none else some addr := rfl
    rw [hsel]
    by_cases haddr : addr = ""
    · simp [haddr, voterPage, voterPageWrites, Dom.apply, drop_trace]
    · simp only [haddr, if_false]
      cases hc : env.getAllCandidates (voterPage s addr details true hasVoted).trace addr with
      | error e =>
        simp [voterPage, voterPageWrites, Dom.apply, drop_trace]
      | ok cs =>
        simp [voterPage, voterPageWrites, Dom.apply, drop_trace, offersEnabledVote,
          voteCardsOf]
        exact fun h _ _ => h

theorem voter_view_of_registration_witness :
    (selectVoterElection calmEnv "0xE1" connectedState).2.dom.display "voterRegisterBtn"
      = "none" ∧
    (selectVoterElection calmEnv "0xE1" connectedState).2.dom.display
      "voterCandidatesSection" = "block" ∧
    (selectVoterElection calmEnv "0xE1" connectedState).2.dom.innerHTML "voterElectionInfo"
      = .voterInfo "Board election" "badge-open" "VotingOpen"
          "✅ Registered - Ready to vote" ∧
    (∃ cards, (selectVoterElection calmEnv "0xE1" connectedState).2.dom.innerHTML
        "voterCandidatesList" = .voteCards cards ∧ ∀ c ∈ cards, c.disabled = false) :=
  have h := voter_view_of_registration calmEnv "0xE1" connectedState
    { title := "Board", description := "Board election", field2 := "0xE1", field3 := 0,
      field4 := 0, status := "VotingOpen" } true false 0 rfl rfl
  ⟨h.2.1, h.2.2.1, h.2.2.2.1, h.2.2.2.2.2.1 ⟨"0xE1", by decide⟩⟩

/-- C10, as stated, fails: an account that has voted can be offered an enabled vote
button. On the page of a registered account that has not voted, `selectVoterElection`
is run again after the vote; `getVoter` answers (registered, hasVoted) = (true, true) and
the read of the candidates fails: the candidates section stays visible and its list
still holds the enabled buttons rendered before. -/
theorem voted_account_offered_enabled_vote :
    votedEnv.getVoter
      (readyToVoteState.trace ++ [.dom (.display "voterElectionSection" "block"),
        .read (.getElectionDetails "0xE1") true]) "0xE1" readyToVoteState.userAddress
      = .ok (true, true, 1) ∧
    (selectVoterElection votedEnv "0xE1" readyToVoteState).1 = .ok () ∧
    (selectVoterElection votedEnv "0xE1" readyToVoteState).2.dom.innerHTML
      "voterElectionInfo"
      = .voterInfo "Board election" "badge-open" "VotingOpen" "✅ Already voted" ∧
    offersEnabledVote (selectVoterElection votedEnv "0xE1" readyToVoteState).2.dom = true := by
  decide

/-! ## Runs of the handlers of state-changing calls -/

theorem write_noted (w : DomWrite) (s : State) : write w s = (.ok (), s.noted w) := rfl

theorem showMessage_noted (id msg type : String) (s : State) :
    showMessage id msg type s = (.ok (), s.noted (.innerHTML id (.message type msg))) := rfl

theorem electionSend_ok (env : Env) (call : MutCall) (s : State) (u : Unit)
    (h : env.send s.trace call = .ok u) :
    electionSend env call s = (.ok u, s.logged (.submit call true)) := by
  unfold electionSend
  rw [run_ask, h]
  rfl

theorem electionSend_error (env : Env) (call : MutCall) (s : State) (e : ErrorObj)
    (h : env.send s.trace call = .error e) :
    electionSend env call s = (.error e, s.logged (.submit call false)) := by
  unfold electionSend
  rw [run_ask, h]
  rfl

theorem txWait_ok (env : Env) (call : MutCall) (s : State) (u : Unit)
    (h : env.confirm s.trace call = .ok u) :
    txWait env call s = (.ok u, s.logged (.wait call true)) := by
  unfold txWait
  rw [run_ask, h]
  rfl

theorem txWait_error (env : Env) (call : MutCall) (s : State) (e : ErrorObj)
    (h : env.confirm s.trace call = .error e) :
    txWait env call s = (.error e, s.logged (.wait call false)) := by
  unfold txWait
  rw [run_ask, h]
  rfl

theorem run_report (id : String) (error : ErrorObj) (s : State) :
    ((do
      let msg ← Act.ofExcept (parseError error)
      showMessage id msg "error" : Act Unit) s).2.trace = s.trace ++ report id error := by
  rw [run_bind, run_ofExcept]
  unfold report
  cases parseError error with
  | ok msg => simp [run_showMessage]
  | error e => simp

theorem run_reportAlert (error : ErrorObj) (s : State) :
    ((do
      let msg ← Act.ofExcept (parseError error)
      alert msg : Act Unit) s).2.trace = s.trace ++ reportAlert error := by
  rw [run_bind, run_ofExcept]
  unfold reportAlert
  cases parseError error with
  | ok msg => simp [run_alert]
  | error e => simp

theorem report_quiet (id : String) (error : ErrorObj) :
    Act.Steps (Appends fun e => e.isQuiet = true) (do
      let msg ← Act.ofExcept (parseError error)
      showMessage id msg "error" : Act Unit) :=
  notice_appends (p := fun e => e.isQuiet = true) id
    (fun msg => by simp [Event.isQuiet]) error

theorem quiet_of_load (e : Event) (h : e.isLoad = true) : e.isQuiet = true := by
  cases e with
  | dom w =>
    cases w with
    | innerHTML id html => cases html <;> simp [Event.isLoad, Event.isQuiet] at h ⊢
    | _ => rfl
  | _ => simp [Event.isLoad, Event.isQuiet] at h ⊢

theorem selectVoterElection_quiet (env : Env) (addr : Address) :
    Act.Steps (Appends fun e => e.isQuiet = true) (selectVoterElection env addr) := by
  have hR := appends_preorderly fun e : Event => e.isQuiet = true
  unfold selectVoterElection
  refine steps_bind hR (change_appends _ fun _ => rfl) fun _ => ?_
  refine steps_bind hR (write_appends _ (by rfl)) fun _ => ?_
  refine steps_bind hR (ask_appends _ _ fun _ => rfl) fun details => ?_
  refine steps_bind hR (steps_look hR) fun s => ?_
  refine steps_bind hR (ask_appends _ _ fun _ => rfl) fun voterInfo => ?_
  obtain ⟨isReg, hasVoted, votedId⟩ := voterInfo
  have hload := loads_appends quiet_of_load (loadVoterCandidates_loads env hasVoted)
  cases isReg <;> cases hasVoted <;>
    simp only [Bool.not_true, Bool.not_false, if_true, if_false, Bool.false_eq_true]
  · refine steps_bind hR (write_appends _ (by rfl)) fun _ => ?_
    refine steps_bind hR (write_appends _ (by rfl)) fun _ => ?_
    refine steps_bind hR (write_appends _ (by rfl)) fun _ => ?_
    exact write_appends _ (by rfl)
  · refine steps_bind hR (write_appends _ (by rfl)) fun _ => ?_
    refine steps_bind hR (write_appends _ (by rfl)) fun _ => ?_
    refine steps_bind hR (write_appends _ (by rfl)) fun _ => ?_
    exact write_appends _ (by rfl)
  · refine steps_bind hR (write_appends _ (by rfl)) fun _ => ?_
    refine steps_bind hR (write_appends _ (by rfl)) fun _ => ?_
    refine steps_bind hR (write_appends _ (by rfl)) fun _ => ?_
    exact steps_bind hR (write_appends _ (by rfl)) fun _ => hload
  · refine steps_bind hR (write_appends _ (by rfl)) fun _ => ?_
    refine steps_bind hR (write_appends _ (by rfl)) fun _ => ?_
    refine steps_bind hR (write_appends _ (by rfl)) fun _ => ?_
    exact steps_bind hR (write_appends _ (by rfl)) fun _ => hload

/-- The runs of `voterRegister` with an election selected: when the submission of
`registerVoter` fails, when its confirmation fails, and when both succeed. -/
theorem voterRegister_runs (env : Env) (s : State) (election : Address)
    (hsel : selected s.voterElection = some election) :
    (∀ e, env.send (s.trace ++ [notice "voterMessage" "Registering..."])
        (.registerVoter election) = .error e →
      (voterRegister env).events s =
        [notice "voterMessage" "Registering...", .submit (.registerVoter election) false]
          ++ report "voterMessage" e) ∧
    (∀ u e, env.send (s.trace ++ [notice "voterMessage" "Registering..."])
        (.registerVoter election) = .ok u →
      env.confirm (s.trace ++ [notice "voterMessage" "Registering...",
        .submit (.registerVoter election) true]) (.registerVoter election) = .error e →
      (voterRegister env).events s =
        [notice "voterMessage" "Registering...", .submit (.registerVoter election) true,
         .wait (.registerVoter election) false] ++ report "voterMessage" e) ∧
    (∀ u v, env.send (s.trace ++ [notice "voterMessage" "Registering..."])
        (.registerVoter election) = .ok u →
      env.confirm (s.trace ++ [notice "voterMessage" "Registering...",
        .submit (.registerVoter election) true]) (.registerVoter election) = .ok v →
      ∃ rest, (voterRegister env).events s =
        [notice "voterMessage" "Registering...", .submit (.registerVoter election) true,
         .wait (.registerVoter election) true,
         success "voterMessage" "Registered successfully"] ++ rest ∧
        ∀ e ∈ rest, e.isQuiet = true) := by
  have hR := appends_preorderly fun e : Event => e.isQuiet = true
  have hrun : voterRegister env s = Act.attempt (do
        showMessage "voterMessage" "Registering..." "info"
        electionSend env (.registerVoter election)
        txWait env (.registerVoter election)
        showMessage "voterMessage" "Registered successfully" "success"
        selectVoterElection env election)
      (fun error => do
        let msg ← Act.ofExcept (parseError error)
        showMessage "voterMessage" msg "error") s := by
    unfold voterRegister
    rw [run_bind, run_look]
    simp only [hsel]
  unfold Act.events
  rw [hrun, attempt_bind_ok _ _ _ s _ () (showMessage_noted _ _ _ s)]
  refine ⟨?_, ?_, ?_⟩
  · intro e hS
    rw [attempt_bind_error _ _ _ _ _ e (electionSend_error env _ _ e hS), run_report]
    simp [State.noted, State.logged, notice]
  · intro u e hS hW
    rw [attempt_bind_ok _ _ _ _ _ u (electionSend_ok env _ _ u hS),
      attempt_bind_error _ _ _ _ _ e (txWait_error env _ _ e (by simpa [State.noted, State.logged, notice] using hW)),
      run_report]
    simp [State.noted, State.logged, notice]
  · intro u v hS hW
    rw [attempt_bind_ok _ _ _ _ _ u (electionSend_ok env _ _ u hS),
      attempt_bind_ok _ _ _ _ _ v (txWait_ok env _ _ v (by simpa [State.noted, State.logged, notice] using hW)),
      attempt_bind_ok _ _ _ _ _ () (showMessage_noted _ _ _ _)]
    obtain ⟨l, hl, hp⟩ := steps_attempt hR (selectVoterElection_quiet env election)
      (fun e => report_quiet "voterMessage" e)
      ((((s.noted (.innerHTML "voterMessage" (.message "info" "Registering..."))).logged
        (.submit (.registerVoter election) true)).logged
        (.wait (.registerVoter election) true)).noted
        (.innerHTML "voterMessage" (.message "success" "Registered successfully")))
    refine ⟨l, ?_, hp⟩
    rw [hl]
    simp [State.noted, State.logged, notice, success]

/-- The runs of `voterCastVote(id)` with an election selected: when the submission of
`vote` fails, when its confirmation fails, and when both succeed. -/
theorem voterCastVote_runs (env : Env) (id : Nat) (s : State) (election : Address)
    (hsel : selected s.voterElection = some election) :
    (∀ e, env.send (s.trace ++ [notice "voterMessage" "Casting vote..."])
        (.vote election id) = .error e →
      (voterCastVote env id).events s =
        [notice "voterMessage" "Casting vote...", .submit (.vote election id) false]
          ++ report "voterMessage" e) ∧
    (∀ u e, env.send (s.trace ++ [notice "voterMessage" "Casting vote..."])
        (.vote election id) = .ok u →
      env.confirm (s.trace ++ [notice "voterMessage" "Casting vote...",
        .submit (.vote election id) true]) (.vote election id) = .error e →
      (voterCastVote env id).events s =
        [notice "voterMessage" "Casting vote...", .submit (.vote election id) true,
         .wait (.vote election id) false] ++ report "voterMessage" e) ∧
    (∀ u v, env.send (s.trace ++ [notice "voterMessage" "Casting vote..."])
        (.vote election id) = .ok u →
      env.confirm (s.trace ++ [notice "voterMessage" "Casting vote...",
        .submit (.vote election id) true]) (.vote election id) = .ok v →
      ∃ rest, (voterCastVote env id).events s =
        [notice "voterMessage" "Casting vote...", .submit (.vote election id) true,
         .wait (.vote election id) true,
         success "voterMessage" "✅ Vote cast successfully!"] ++ rest ∧
        ∀ e ∈ rest, e.isQuiet = true) := by
  have hR := appends_preorderly fun e : Event => e.isQuiet = true
  have hrun : voterCastVote env id s = Act.attempt (do
        showMessage "voterMessage" "Casting vote..." "info"
        electionSend env (.vote election id)
        txWait env (.vote election id)
        showMessage "voterMessage" "✅ Vote cast successfully!" "success"
        selectVoterElection env election)
      (fun error => do
        let msg ← Act.ofExcept (parseError error)
        showMessage "voterMessage" msg "error") s := by
    unfold voterCastVote
    rw [run_bind, run_look]
    simp only [hsel]
  unfold Act.events
  rw [hrun, attempt_bind_ok _ _ _ s _ () (showMessage_noted _ _ _ s)]
  refine ⟨?_, ?_, ?_⟩
  · intro e hS
    rw [attempt_bind_error _ _ _ _ _ e (electionSend_error env _ _ e hS), run_report]
    simp [State.noted, State.logged, notice]
  · intro u e hS hW
    rw [attempt_bind_ok _ _ _ _ _ u (electionSend_ok env _ _ u hS),
      attempt_bind_error _ _ _ _ _ e (txWait_error env _ _ e
        (by simpa [State.noted, State.logged, notice] using hW)),
      run_report]
    simp [State.noted, State.logged, notice]
  · intro u v hS hW
    rw [attempt_bind_ok _ _ _ _ _ u (electionSend_ok env _ _ u hS),
      attempt_bind_ok _ _ _ _ _ v (txWait_ok env _ _ v
        (by simpa [State.noted, State.logged, notice] using hW)),
      attempt_bind_ok _ _ _ _ _ () (showMessage_noted _ _ _ _)]
    obtain ⟨l, hl, hp⟩ := steps_attempt hR (selectVoterElection_quiet env election)
      (fun e => report_quiet "voterMessage" e)
      ((((s.noted (.innerHTML "voterMessage" (.message "info" "Casting vote..."))).logged
        (.submit (.vote election id) true)).logged
        (.wait (.vote election id) true)).noted
        (.innerHTML "voterMessage" (.message "success" "✅ Vote cast successfully!")))
    refine ⟨l, ?_, hp⟩
    rw [hl]
    simp [State.noted, State.logged, notice, success]

/-- The runs of `updateTimings` with an election selected: when the submission fails,
when the confirmation fails, and when both succeed. -/
theorem updateTimings_runs (env : Env) (s : State) (election : Address) (call : MutCall)
    (hsel : selected s.currentElection = some election)
    (hcall : call = .updateTimings election
      (seconds env (s.dom.value "setupRegStart")) (seconds env (s.dom.value "setupRegEnd"))
      (seconds env (s.dom.value "setupVoteStart"))
      (seconds env (s.dom.value "setupVoteEnd"))) :
    (∀ e, env.send (s.trace ++ [notice "setupMessage" "Updating..."]) call = .error e →
      (updateTimings env).events s =
        [notice "setupMessage" "Updating...", .submit call false]
          ++ report "setupMessage" e) ∧
    (∀ u e, env.send (s.trace ++ [notice "setupMessage" "Updating..."]) call = .ok u →
      env.confirm (s.trace ++ [notice "setupMessage" "Updating...", .submit call true]) call
        = .error e →
      (updateTimings env).events s =
        [notice "setupMessage" "Updating...", .submit call true, .wait call false]
          ++ report "setupMessage" e) ∧
    (∀ u v, env.send (s.trace ++ [notice "setupMessage" "Updating..."]) call = .ok u →
      env.confirm (s.trace ++ [notice "setupMessage" "Updating...", .submit call true]) call
        = .ok v →
      (updateTimings env).events s =
        [notice "setupMessage" "Updating...", .submit call true, .wait call true,
         success "setupMessage" "Timings updated"]) := by
  have hrun : updateTimings env s = Act.attempt (do
        showMessage "setupMessage" "Updating..." "info"
        electionSend env call
        txWait env call
        showMessage "setupMessage" "Timings updated" "success")
      (fun error => do
        let msg ← Act.ofExcept (parseError error)
        showMessage "setupMessage" msg "error") s := by
    unfold updateTimings
    rw [run_bind, run_look]
    simp only [hsel, hcall]
  unfold Act.events
  rw [hrun, attempt_bind_ok _ _ _ s _ () (showMessage_noted _ _ _ s)]
  refine ⟨?_, ?_, ?_⟩
  · intro e hS
    rw [attempt_bind_error _ _ _ _ _ e (electionSend_error env _ _ e hS), run_report]
    simp [State.noted, State.logged, notice]
  · intro u e hS hW
    rw [attempt_bind_ok _ _ _ _ _ u (electionSend_ok env _ _ u hS),
      attempt_bind_error _ _ _ _ _ e (txWait_error env _ _ e
        (by simpa [State.noted, State.logged, notice] using hW)),
      run_report]
    simp [State.noted, State.logged, notice]
  · intro u v hS hW
    rw [attempt_bind_ok _ _ _ _ _ u (electionSend_ok env _ _ u hS),
      attempt_bind_ok _ _ _ _ _ v (txWait_ok env _ _ v
        (by simpa [State.noted, State.logged, notice] using hW)),
      run_attempt, showMessage_noted]
    simp [State.noted, State.logged, notice, success]

/-- The runs of `addCandidate` with an election selected and both fields filled in. -/
theorem addCandidate_runs (env : Env) (s : State) (election : Address) (call : MutCall)
    (hsel : selected s.currentElection = some election)
    (hfill : ¬ (s.dom.value "candidateName" = "" ∨ s.dom.value "candidateDescription" = ""))
    (hcall : call = .addCandidate election (s.dom.value "candidateName")
      (s.dom.value "candidateDescription")) :
    (∀ e, env.send (s.trace ++ [notice "candidatesMessage" "Adding candidate..."]) call
        = .error e →
      (addCandidate env).events s =
        [notice "candidatesMessage" "Adding candidate...", .submit call false]
          ++ report "candidatesMessage" e) ∧
    (∀ u e, env.send (s.trace ++ [notice "candidatesMessage" "Adding candidate..."]) call
        = .ok u →
      env.confirm (s.trace ++ [notice "candidatesMessage" "Adding candidate...",
        .submit call true]) call = .error e →
      (addCandidate env).events s =
        [notice "candidatesMessage" "Adding candidate...", .submit call true,
         .wait call false] ++ report "candidatesMessage" e) ∧
    (∀ u v, env.send (s.trace ++ [notice "candidatesMessage" "Adding candidate..."]) call
        = .ok u →
      env.confirm (s.trace ++ [notice "candidatesMessage" "Adding candidate...",
        .submit call true]) call = .ok v →
      ∃ rest, (addCandidate env).events s =
        [notice "candidatesMessage" "Adding candidate...", .submit call true,
         .wait call true, success "candidatesMessage" "Candidate added"] ++ rest ∧
        ∀ e ∈ rest, e.isQuiet = true) := by
  have hR := appends_preorderly fun e : Event => e.isQuiet = true
  have hfill2 : (decide (s.dom.value "candidateName" = "") ||
      decide (s.dom.value "candidateDescription" = "")) = false := by
    simpa using hfill
  have hrun : addCandidate env s = Act.attempt (do
        showMessage "candidatesMessage" "Adding candidate..." "info"
        electionSend env call
        txWait env call
        showMessage "candidatesMessage" "Candidate added" "success"
        write (.value "candidateName" "")
        write (.value "candidateDescription" "")
        loadCandidates env)
      (fun error => do
        let msg ← Act.ofExcept (parseError error)
        showMessage "candidatesMessage" msg "error") s := by
    unfold addCandidate
    rw [run_bind, run_look]
    simp only [hsel, hcall, hfill2, Bool.false_eq_true, if_false]
  unfold Act.events
  rw [hrun, attempt_bind_ok _ _ _ s _ () (showMessage_noted _ _ _ s)]
  refine ⟨?_, ?_, ?_⟩
  · intro e hS
    rw [attempt_bind_error _ _ _ _ _ e (electionSend_error env _ _ e hS), run_report]
    simp [State.noted, State.logged, notice]
  · intro u e hS hW
    rw [attempt_bind_ok _ _ _ _ _ u (electionSend_ok env _ _ u hS),
      attempt_bind_error _ _ _ _ _ e (txWait_error env _ _ e
        (by simpa [State.noted, State.logged, notice] using hW)),
      run_report]
    simp [State.noted, State.logged, notice]
  · intro u v hS hW
    rw [attempt_bind_ok _ _ _ _ _ u (electionSend_ok env _ _ u hS),
      attempt_bind_ok _ _ _ _ _ v (txWait_ok env _ _ v
        (by simpa [State.noted, State.logged, notice] using hW)),
      attempt_bind_ok _ _ _ _ _ () (showMessage_noted _ _ _ _)]
    obtain ⟨l, hl, hp⟩ := steps_attempt hR
      (steps_bind hR (write_appends (.value "candidateName" "") (by rfl)) fun _ =>
        steps_bind hR (write_appends (.value "candidateDescription" "") (by rfl)) fun _ =>
          loads_appends quiet_of_load (loadCandidates_loads env))
      (fun e => report_quiet "candidatesMessage" e)
      ((((s.noted (.innerHTML "candidatesMessage"
          (.message "info" "Adding candidate..."))).logged
        (.submit call true)).logged (.wait call true)).noted
        (.innerHTML "candidatesMessage" (.message "success" "Candidate added")))
    refine ⟨l, ?_, hp⟩
    rw [hl]
    simp [State.noted, State.logged, notice, success]

theorem alert_logged (msg : String) (s : State) :
    alert msg s = (.ok (), s.logged (.alert msg)) := rfl

theorem factorySend_ok (env : Env) (call : MutCall) (s : State) (u : Unit)
    (hf : s.factoryContract = true) (h : env.send s.trace call = .ok u) :
    factorySend env call s = (.ok u, s.logged (.submit call true)) := by
  unfold factorySend
  rw [run_bind, run_look]
  simp only [hf, if_true]
  rw [run_ask, h]
  rfl

theorem factorySend_error (env : Env) (call : MutCall) (s : State) (e : ErrorObj)
    (hf : s.factoryContract = true) (h : env.send s.trace call = .error e) :
    factorySend env call s = (.error e, s.logged (.submit call false)) := by
  unfold factorySend
  rw [run_bind, run_look]
  simp only [hf, if_true]
  rw [run_ask, h]
  rfl

theorem run_logReport (id : String) (error : ErrorObj) (s : State) :
    ((do
      consoleError "" error
      let msg ← Act.ofExcept (parseError error)
      showMessage id msg "error" : Act Unit) s).2.trace
      = s.trace ++ .consoleError "" error :: report id error := by
  rw [run_bind, run_consoleError]
  simp only
  rw [run_report]
  simp

theorem logReport_quiet (id : String) (error : ErrorObj) :
    Act.Steps (Appends fun e => e.isQuiet = true) (do
      consoleError "" error
      let msg ← Act.ofExcept (parseError error)
      showMessage id msg "error" : Act Unit) :=
  steps_bind (appends_preorderly _) (emit_appends _ (by rfl)) fun _ => report_quiet id error

/-- The runs of `createNewElection` once the factory contract object exists. -/
theorem createNewElection_runs (env : Env) (s : State) (hf : s.factoryContract = true) :
    (∀ e, env.send (s.trace ++ [notice "electionsList" "Creating election..."])
        .createElection = .error e →
      (createNewElection env).events s =
        [notice "electionsList" "Creating election...", .submit .createElection false,
         .consoleError "" e] ++ report "electionsList" e) ∧
    (∀ u e, env.send (s.trace ++ [notice "electionsList" "Creating election..."])
        .createElection = .ok u →
      env.confirm (s.trace ++ [notice "electionsList" "Creating election...",
        .submit .createElection true]) .createElection = .error e →
      (createNewElection env).events s =
        [notice "electionsList" "Creating election...", .submit .createElection true,
         .wait .createElection false, .consoleError "" e] ++ report "electionsList" e) ∧
    (∀ u v, env.send (s.trace ++ [notice "electionsList" "Creating election..."])
        .createElection = .ok u →
      env.confirm (s.trace ++ [notice "electionsList" "Creating election...",
        .submit .createElection true]) .createElection = .ok v →
      ∃ rest, (createNewElection env).events s =
        [notice "electionsList" "Creating election...", .submit .createElection true,
         .wait .createElection true,
         success "electionsList" "Election created successfully"] ++ rest ∧
        ∀ e ∈ rest, e.isLoad = true) := by
  unfold Act.events createNewElection
  rw [attempt_bind_ok _ _ _ s _ () (showMessage_noted _ _ _ s)]
  refine ⟨?_, ?_, ?_⟩
  · intro e hS
    rw [attempt_bind_error _ _ _ _ _ e (factorySend_error env _ (s.noted _) e hf hS), run_logReport]
    simp [State.noted, State.logged, notice]
  · intro u e hS hW
    rw [attempt_bind_ok _ _ _ _ _ u (factorySend_ok env _ (s.noted _) u hf hS),
      attempt_bind_error _ _ _ _ _ e (txWait_error env _ _ e
        (by simpa [State.noted, State.logged, notice] using hW)),
      run_logReport]
    simp [State.noted, State.logged, notice]
  · intro u v hS hW
    rw [attempt_bind_ok _ _ _ _ _ u (factorySend_ok env _ (s.noted _) u hf hS),
      attempt_bind_ok _ _ _ _ _ v (txWait_ok env _ _ v
        (by simpa [State.noted, State.logged, notice] using hW)),
      attempt_bind_ok _ _ _ _ _ () (showMessage_noted _ _ _ _),
      attempt_of_ok _ _ _ () (loadMyElections_ok env _)]
    obtain ⟨⟨l, hl, hp⟩, _⟩ := loadMyElections_loads env
      ((((s.noted (.innerHTML "electionsList" (.message "info" "Creating election..."))).logged
        (.submit .createElection true)).logged (.wait .createElection true)).noted
        (.innerHTML "electionsList" (.message "success" "Election created successfully")))
    refine ⟨l, ?_, hp⟩
    rw [hl]
    simp [State.noted, State.logged, notice, success]

/-- The runs of `finalizeElection` with an election selected. -/
theorem finalizeElection_runs (env : Env) (s : State) (election : Address)
    (hsel : selected s.currentElection = some election) :
    (∀ e, env.send s.trace (.finalizeElection election) = .error e →
      (finalizeElection env).events s =
        .submit (.finalizeElection election) false :: reportAlert e) ∧
    (∀ u e, env.send s.trace (.finalizeElection election) = .ok u →
      env.confirm (s.trace ++ [.submit (.finalizeElection election) true])
        (.finalizeElection election) = .error e →
      (finalizeElection env).events s =
        .submit (.finalizeElection election) true ::
          .wait (.finalizeElection election) false :: reportAlert e) ∧
    (∀ u v, env.send s.trace (.finalizeElection election) = .ok u →
      env.confirm (s.trace ++ [.submit (.finalizeElection election) true])
        (.finalizeElection election) = .ok v →
      ∃ rest, (finalizeElection env).events s =
        [.submit (.finalizeElection election) true,
         .wait (.finalizeElection election) true, .alert "Election finalized"] ++ rest ∧
        ∀ e ∈ rest, e.isLoad = true) := by
  have hrun : finalizeElection env s = Act.attempt (do
        electionSend env (.finalizeElection election)
        txWait env (.finalizeElection election)
        alert "Election finalized"
        loadResults env)
      (fun error => do
        let msg ← Act.ofExcept (parseError error)
        alert msg) s := by
    unfold finalizeElection
    rw [run_bind, run_look]
    simp only [hsel]
  unfold Act.events
  rw [hrun]
  refine ⟨?_, ?_, ?_⟩
  · intro e hS
    rw [attempt_bind_error _ _ _ _ _ e (electionSend_error env _ _ e hS), run_reportAlert]
    simp [State.logged]
  · intro u e hS hW
    rw [attempt_bind_ok _ _ _ _ _ u (electionSend_ok env _ _ u hS),
      attempt_bind_error _ _ _ _ _ e (txWait_error env _ _ e hW), run_reportAlert]
    simp [State.logged]
  · intro u v hS hW
    rw [attempt_bind_ok _ _ _ _ _ u (electionSend_ok env _ _ u hS),
      attempt_bind_ok _ _ _ _ _ v (txWait_ok env _ _ v hW),
      attempt_bind_ok _ _ _ _ _ () (alert_logged _ _),
      attempt_of_ok _ _ _ () (loadResults_ok env _)]
    obtain ⟨⟨l, hl, hp⟩, _⟩ := loadResults_loads env
      (((s.logged (.submit (.finalizeElection election) true)).logged
        (.wait (.finalizeElection election) true)).logged (.alert "Election finalized"))
    refine ⟨l, ?_, hp⟩
    rw [hl]
    simp [State.logged]

/-- The runs of `initializeElection` with an election selected, both fields filled in
and the factory contract object in place. -/
theorem initializeElection_runs (env : Env) (s : State) (election : Address)
    (call : MutCall)
    (hsel : selected s.currentElection = some election)
    (hfill : ¬ (s.dom.value "setupTitle" = "" ∨ s.dom.value "setupDescription" = ""))
    (hf : s.factoryContract = true)
    (hcall : call = .initializeElection election (s.dom.value "setupTitle")
      (s.dom.value "setupDescription")
      (seconds env (s.dom.value "setupRegStart")) (seconds env (s.dom.value "setupRegEnd"))
      (seconds env (s.dom.value "setupVoteStart"))
      (seconds env (s.dom.value "setupVoteEnd"))) :
    (∀ e, env.send (s.trace ++ [notice "setupMessage" "Initializing..."]) call = .error e →
      (initializeElection env).events s =
        [notice "setupMessage" "Initializing...", .submit call false]
          ++ report "setupMessage" e) ∧
    (∀ u e, env.send (s.trace ++ [notice "setupMessage" "Initializing..."]) call = .ok u →
      env.confirm (s.trace ++ [notice "setupMessage" "Initializing...", .submit call true])
        call = .error e →
      (initializeElection env).events s =
        [notice "setupMessage" "Initializing...", .submit call true, .wait call false]
          ++ report "setupMessage" e) ∧
    (∀ u v e, env.send (s.trace ++ [notice "setupMessage" "Initializing..."]) call = .ok u →
      env.confirm (s.trace ++ [notice "setupMessage" "Initializing...", .submit call true])
        call = .ok v →
      env.send (s.trace ++ [notice "setupMessage" "Initializing...", .submit call true,
        .wait call true]) (.updateElectionInfo election (s.dom.value "setupTitle"))
        = .error e →
      (initializeElection env).events s =
        [notice "setupMessage" "Initializing...", .submit call true, .wait call true,
         .submit (.updateElectionInfo election (s.dom.value "setupTitle")) false]
          ++ report "setupMessage" e) ∧
    (∀ u v w, env.send (s.trace ++ [notice "setupMessage" "Initializing..."]) call = .ok u →
      env.confirm (s.trace ++ [notice "setupMessage" "Initializing...", .submit call true])
        call = .ok v →
      env.send (s.trace ++ [notice "setupMessage" "Initializing...", .submit call true,
        .wait call true]) (.updateElectionInfo election (s.dom.value "setupTitle"))
        = .ok w →
      ∃ rest, (initializeElection env).events s =
        [notice "setupMessage" "Initializing...", .submit call true, .wait call true,
         .submit (.updateElectionInfo election (s.dom.value "setupTitle")) true,
         success "setupMessage" "Election initialized"] ++ rest ∧
        ∀ e ∈ rest, e.isLoad = true) := by
  have hfill2 : (decide (s.dom.value "setupTitle" = "") ||
      decide (s.dom.value "setupDescription" = "")) = false := by
    simpa using hfill
  have hrun : initializeElection env s = Act.attempt (do
        showMessage "setupMessage" "Initializing..." "info"
        electionSend env call
        txWait env call
        factorySend env (.updateElectionInfo election (s.dom.value "setupTitle"))
        showMessage "setupMessage" "Election initialized" "success"
        loadMyElections env)
      (fun error => do
        let msg ← Act.ofExcept (parseError error)
        showMessage "setupMessage" msg "error") s := by
    unfold initializeElection
    rw [run_bind, run_look]
    simp only [hsel, hcall, hfill2, Bool.false_eq_true, if_false]
  unfold Act.events
  rw [hrun, attempt_bind_ok _ _ _ s _ () (showMessage_noted _ _ _ s)]
  refine ⟨?_, ?_, ?_, ?_⟩
  · intro e hS
    rw [attempt_bind_error _ _ _ _ _ e (electionSend_error env _ _ e hS), run_report]
    simp [State.noted, State.logged, notice]
  · intro u e hS hW
    rw [attempt_bind_ok _ _ _ _ _ u (electionSend_ok env _ _ u hS),
      attempt_bind_error _ _ _ _ _ e (txWait_error env _ _ e
        (by simpa [State.noted, State.logged, notice] using hW)),
      run_report]
    simp [State.noted, State.logged, notice]
  · intro u v e hS hW hU
    rw [attempt_bind_ok _ _ _ _ _ u (electionSend_ok env _ _ u hS),
      attempt_bind_ok _ _ _ _ _ v (txWait_ok env _ _ v
        (by simpa [State.noted, State.logged, notice] using hW)),
      attempt_bind_error _ _ _ _ _ e (factorySend_error env _
        (((s.noted _).logged _).logged _) e hf
        (by simpa [State.noted, State.logged, notice] using hU)),
      run_report]
    simp [State.noted, State.logged, notice]
  · intro u v w hS hW hU
    rw [attempt_bind_ok _ _ _ _ _ u (electionSend_ok env _ _ u hS),
      attempt_bind_ok _ _ _ _ _ v (txWait_ok env _ _ v
        (by simpa [State.noted, State.logged, notice] using hW)),
      attempt_bind_ok _ _ _ _ _ w (factorySend_ok env _
        (((s.noted _).logged _).logged _) w hf
        (by simpa [State.noted, State.logged, notice] using hU)),
      attempt_bind_ok _ _ _ _ _ () (showMessage_noted _ _ _ _),
      attempt_of_ok _ _ _ () (loadMyElections_ok env _)]
    obtain ⟨⟨l, hl, hp⟩, _⟩ := loadMyElections_loads env
      (((((s.noted (.innerHTML "setupMessage" (.message "info" "Initializing..."))).logged
        (.submit call true)).logged (.wait call true)).logged
        (.submit (.updateElectionInfo election (s.dom.value "setupTitle")) true)).noted
        (.innerHTML "setupMessage" (.message "success" "Election initialized")))
    refine ⟨l, ?_, hp⟩
    rw [hl]
    simp [State.noted, State.logged, notice, success]

/-! ## Failures of state-changing calls -/

/-- C5: when `registerVoter` is rejected with an error object that has neither code nor
message, `voterRegister` reports nothing: `parseError` throws inside the `catch` clause,
the handler itself fails with that `TypeError`, and the run ends right after the failed
submission, with no error message shown. -/
theorem voterRegister_reports_nothing :
    (voterRegister bareRejectEnv voterState).1
      = .error (typeError "Cannot read properties of undefined (reading 'includes')") ∧
    (voterRegister bareRejectEnv).events voterState =
      [.dom (.innerHTML "voterMessage" (.message "info" "Registering...")),
       .submit (.registerVoter "0xE1") false] := by
  decide

end ElectionClient
